import Mathlib

/-!
Shallow embedding of the MQTT broker engine of the yuneta `c-iot` repository
(`src/c_mqtt.c`), together with theorems settling the specification claims.

Machine integers are modelled as `Nat` with explicit `% 2^w` where wrap-around
matters; byte buffers are `List Nat` whose elements are below 256 (the C code
reads them through `unsigned char`); fallible C functions return `Except Int`
or an `Int` return code, with the same numeric error codes as the source.
-/

namespace CMqtt

/-! ### Error and reason codes (enum `mosq_err_t`, `mqtt5_return_codes`,
    `mqtt311_connack_codes` of `c_mqtt.c`) -/

def MOSQ_ERR_SUCCESS : Int := 0
def MOSQ_ERR_PROTOCOL : Int := -2
def MOSQ_ERR_NOT_FOUND : Int := -6
def MOSQ_ERR_MALFORMED_UTF8 : Int := -18
def MOSQ_ERR_MALFORMED_PACKET : Int := -21
def MOSQ_ERR_DUPLICATE_PROPERTY : Int := -22
def MOSQ_ERR_SUB_EXISTS : Int := -42

def MQTT_RC_SUCCESS : Nat := 0
def MQTT_RC_NO_MATCHING_SUBSCRIBERS : Nat := 16
def MQTT_RC_UNSPECIFIED : Nat := 128
def MQTT_RC_MALFORMED_PACKET : Nat := 129
def MQTT_RC_IMPLEMENTATION_SPECIFIC : Nat := 131
def MQTT_RC_NOT_AUTHORIZED : Nat := 135
def MQTT_RC_PACKET_TOO_LARGE : Nat := 149
def MQTT_RC_QUOTA_EXCEEDED : Nat := 151

def CONNACK_ACCEPTED : Nat := 0
def CONNACK_REFUSED_PROTOCOL_VERSION : Nat := 1
def CONNACK_REFUSED_IDENTIFIER_REJECTED : Nat := 2

/-- enum `mosquitto_protocol` -/
def mosq_p_mqtt31 : Nat := 1
def mosq_p_mqtt311 : Nat := 2
def mosq_p_mqtt5 : Nat := 5

/-! ### Variable-length integers (`mqtt_write_varint` / `mqtt_read_varint`) -/

/-- Loop body of `mqtt_write_varint` (`c_mqtt.c:2533`).  The C loop is a
do-while that runs while `word > 0 && count < 5`, appending one byte per
iteration; `count` is the number of bytes emitted so far.  The first
argument is structural fuel equal to `5 - count`, the exact bound the
`count < 5` guard enforces, so the `0` case is never reached from the
entry point. -/
def mqtt_write_varint_go : Nat → Nat → Nat → List Nat → List Nat × Nat
  | 0, _, count, acc => (acc, count)
  | fuel + 1, word, count, acc =>
    let byte := word % 128
    let word2 := word / 128
    let b := if word2 > 0 then byte ||| 128 else byte
    if word2 > 0 ∧ count + 1 < 5 then
      mqtt_write_varint_go fuel word2 (count + 1) (acc ++ [b])
    else
      (acc ++ [b], count + 1)

/-- `mqtt_write_varint` (`c_mqtt.c:2533`): returns the bytes appended to the
gbuffer and the C return code (0, or -1 when the loop hit `count == 5`).
The C parameter is a `uint32_t`. -/
def mqtt_write_varint (word : Nat) : List Nat × Int :=
  let r := mqtt_write_varint_go 5 (word % 4294967296) 0 []
  (r.1, if r.2 == 5 then -1 else 0)

/-- Loop of `mqtt_read_varint` (`c_mqtt.c:2863`): at most 4 iterations
(`for(i=0; i<4; i++)`); each reads one byte if available.  Running out of
fuel, out of bytes, or hitting the overlong check all fall through to
`MOSQ_ERR_MALFORMED_PACKET`.  On success returns (value, bytes consumed). -/
def mqtt_read_varint_loop : Nat → List Nat → Nat → Nat → Nat → Except Int (Nat × Nat)
  | 0, _, _, _, _ => .error MOSQ_ERR_MALFORMED_PACKET
  | _ + 1, [], _, _, _ => .error MOSQ_ERR_MALFORMED_PACKET
  | fuel + 1, byte :: rest, lbytes, lword, mult =>
    let lbytes' := lbytes + 1
    let lword' := lword + (byte &&& 127) * mult
    if byte &&& 128 = 0 then
      if lbytes' > 1 ∧ byte = 0 then
        .error MOSQ_ERR_MALFORMED_PACKET
      else
        .ok (lword', lbytes')
    else
      mqtt_read_varint_loop fuel rest lbytes' lword' (mult * 128)

/-- `mqtt_read_varint` (`c_mqtt.c:2863`): decode a varint from the front of
the buffer. -/
def mqtt_read_varint (input : List Nat) : Except Int (Nat × Nat) :=
  mqtt_read_varint_loop 4 input 0 0 1

/-- Minimal number of bytes a varint encoding of `v` can use (1 to 4 for
`v ≤ 268435455`). -/
def minVarintLen (v : Nat) : Nat :=
  if v < 128 then 1
  else if v < 16384 then 2
  else if v < 2097152 then 3
  else 4

/-! ### UTF-8 validation (`mosquitto_validate_utf8`, `c_mqtt.c:1507`) -/

/-- Checks applied to a reconstructed code point, `c_mqtt.c:1566-1594`:
surrogates, overlong 3/4-byte encodings and out-of-range values,
non-characters, control characters. -/
def utf8_check_cp (codelen cp : Nat) : Bool :=
  if 0xD800 ≤ cp ∧ cp ≤ 0xDFFF then false
  else if codelen = 3 ∧ cp < 0x800 then false
  else if codelen = 4 ∧ (cp < 0x10000 ∨ 0x10FFFF < cp) then false
  else if 0xFDD0 ≤ cp ∧ cp ≤ 0xFDEF then false
  else if cp &&& 0xFFFF = 0xFFFE ∨ cp &&& 0xFFFF = 0xFFFF then false
  else if cp ≤ 0x1F ∨ (0x7F ≤ cp ∧ cp ≤ 0x9F) then false
  else true

/-- Continuation-byte loop of the validator, `c_mqtt.c:1558-1564`.  Reading
past the end of the list yields 0 (the NUL terminator of the C string),
which fails the continuation test `(b & 0xC0) == 0x80`. -/
def u8cont : Nat → Nat → List Nat → Option (Nat × List Nat)
  | 0, cp, rest => some (cp, rest)
  | k + 1, cp, rest =>
    let b := rest.headD 0
    if b &&& 192 = 128 then u8cont k ((cp <<< 6) ||| (b &&& 63)) rest.tail
    else none

/-- Main loop of `mosquitto_validate_utf8` (`for(i=0; i<len; i++)`,
`c_mqtt.c:1522`); the fuel argument is the loop bound `len`, one unit per
lead byte, always at least the number of remaining bytes.  The
`rest.length + 1 = codelen - 1` tests are the C `i == len-codelen+1`
not-enough-data checks. -/
def mosquitto_validate_utf8_go : Nat → List Nat → Bool
  | 0, _ => true
  | _ + 1, [] => true
  | fuel + 1, b :: rest =>
    if b = 0 then false
    else if b ≤ 127 then
      match u8cont 0 b rest with
      | none => false
      | some (cp, rest') =>
        if utf8_check_cp 1 cp then mosquitto_validate_utf8_go fuel rest' else false
    else if b &&& 224 = 192 then
      if b = 192 ∨ b = 193 then false
      else if rest.length + 1 = 1 then false
      else
        match u8cont 1 (b &&& 31) rest with
        | none => false
        | some (cp, rest') =>
          if utf8_check_cp 2 cp then mosquitto_validate_utf8_go fuel rest' else false
    else if b &&& 240 = 224 then
      if rest.length + 1 = 2 then false
      else
        match u8cont 2 (b &&& 15) rest with
        | none => false
        | some (cp, rest') =>
          if utf8_check_cp 3 cp then mosquitto_validate_utf8_go fuel rest' else false
    else if b &&& 248 = 240 then
      if b > 244 then false
      else if rest.length + 1 = 3 then false
      else
        match u8cont 3 (b &&& 7) rest with
        | none => false
        | some (cp, rest') =>
          if utf8_check_cp 4 cp then mosquitto_validate_utf8_go fuel rest' else false
    else false

/-- `mosquitto_validate_utf8` (`c_mqtt.c:1507`): 0 on acceptance, -1 on
rejection.  The C `str == NULL` / `len < 0` guards have no list
counterpart; the `len > 65536` guard is kept. -/
def mosquitto_validate_utf8 (l : List Nat) : Int :=
  if l.length > 65536 then -1
  else if mosquitto_validate_utf8_go l.length l then 0 else -1

/-- Specification-side UTF-8 structure: `Utf8Decodes l cps` states that the
byte string `l` parses as a sequence of UTF-8 multi-byte sequences whose
(code point, encoded length) pairs are `cps`, by the RFC 3629 framing (lead
byte ranges 0x00-0x7F / 0xC0-0xDF / 0xE0-0xEF / 0xF0-0xF7, continuation
bytes 0x80-0xBF).  Overlong forms, surrogates, non-characters and control
characters are expressible here; they are excluded separately by
`Utf8Good`. -/
inductive Utf8Decodes : List Nat → List (Nat × Nat) → Prop where
  | nil : Utf8Decodes [] []
  | ascii {b : Nat} {rest : List Nat} {cps : List (Nat × Nat)} :
      b < 128 → Utf8Decodes rest cps → Utf8Decodes (b :: rest) ((b, 1) :: cps)
  | two {b c1 : Nat} {rest : List Nat} {cps : List (Nat × Nat)} :
      192 ≤ b → b < 224 → 128 ≤ c1 → c1 < 192 → Utf8Decodes rest cps →
      Utf8Decodes (b :: c1 :: rest) (((b - 192) * 64 + (c1 - 128), 2) :: cps)
  | three {b c1 c2 : Nat} {rest : List Nat} {cps : List (Nat × Nat)} :
      224 ≤ b → b < 240 → 128 ≤ c1 → c1 < 192 → 128 ≤ c2 → c2 < 192 →
      Utf8Decodes rest cps →
      Utf8Decodes (b :: c1 :: c2 :: rest)
        (((b - 224) * 4096 + (c1 - 128) * 64 + (c2 - 128), 3) :: cps)
  | four {b c1 c2 c3 : Nat} {rest : List Nat} {cps : List (Nat × Nat)} :
      240 ≤ b → b < 248 → 128 ≤ c1 → c1 < 192 → 128 ≤ c2 → c2 < 192 →
      128 ≤ c3 → c3 < 192 → Utf8Decodes rest cps →
      Utf8Decodes (b :: c1 :: c2 :: c3 :: rest)
        (((b - 240) * 262144 + (c1 - 128) * 4096 + (c2 - 128) * 64 + (c3 - 128), 4) :: cps)

/-- Minimal UTF-8 encoding length of a code point. -/
def minUtf8Len (cp : Nat) : Nat :=
  if cp < 128 then 1 else if cp < 2048 then 2 else if cp < 65536 then 3 else 4

/-- The properties the specification asserts for every code point of an
accepted string: encoded minimally (no overlong form), not a surrogate,
not a non-character, not a control character. -/
def Utf8Good (p : Nat × Nat) : Prop :=
  minUtf8Len p.1 = p.2 ∧
  ¬(0xD800 ≤ p.1 ∧ p.1 ≤ 0xDFFF) ∧
  ¬(0xFDD0 ≤ p.1 ∧ p.1 ≤ 0xFDEF) ∧
  p.1 % 65536 ≠ 0xFFFE ∧ p.1 % 65536 ≠ 0xFFFF ∧
  ¬(p.1 ≤ 0x1F) ∧ ¬(0x7F ≤ p.1 ∧ p.1 ≤ 0x9F)

/-! ### Client registry and subscriptions -/

/-- A subscription record as stored in the client resource
(`subscriptions:{filter→{qos,identifier,no_local,retain_as_published}}`). -/
structure Subscription where
  qos : Nat
  identifier : Int
  no_local : Bool
  retain_as_published : Bool
deriving DecidableEq, Repr

/-- A client record of the `gobj_mqtt_clients` resource
(`{id, isConnected, last_mid, keepalive, max_qos, subscriptions}`); the
subscription table is a json object = ordered association list keyed by
topic filter. -/
structure MqttClient where
  id : String
  isConnected : Bool
  last_mid : Nat
  keepalive : Nat
  max_qos : Nat
  subscriptions : List (String × Subscription)
deriving DecidableEq, Repr

/-- `json_object_set` on an association list: replace the value under an
existing key in place, else append. -/
def set_assoc {α : Type} (xs : List (String × α)) (k : String) (v : α) : List (String × α) :=
  match xs with
  | [] => [(k, v)]
  | (k', v') :: rest => if k' = k then (k, v) :: rest else (k', v') :: set_assoc rest k v

/-- Insertion into the `jn_subscribers` result object of
`sub_get_subscribers`: `kw_get_dict(jn_subscribers, client_id, ,KW_CREATE)`
followed by `json_object_set(subscriptions, topic_name, subscription)`. -/
def subscribers_add (acc : List (String × List (String × Subscription)))
    (cid topic : String) (sub : Subscription) :
    List (String × List (String × Subscription)) :=
  match acc with
  | [] => [(cid, [(topic, sub)])]
  | (c, subs) :: rest =>
    if c = cid then (c, set_assoc subs topic sub) :: rest
    else (c, subs) :: subscribers_add rest cid topic sub

/-- Inner loop of `sub_get_subscribers` (`c_mqtt.c:4191-4204`): iterate one
client's subscriptions; a subscription is considered when the client is
connected or its qos is positive, and matches when `strcmp(topic_name,
topic_name_) == 0` (the code's comment `TODO change strcmp() by
match_topic()` notwithstanding, plain string equality is what runs). -/
def sub_get_subscribers_client (acc : List (String × List (String × Subscription)))
    (topic_name : String) (isConnected : Bool) (client_id : String) :
    List (String × Subscription) → List (String × List (String × Subscription))
  | [] => acc
  | (topic_name_, subscription) :: rest =>
    let acc :=
      if isConnected ∨ (¬isConnected ∧ subscription.qos > 0) then
        if topic_name = topic_name_ then
          subscribers_add acc client_id topic_name subscription
        else acc
      else acc
    sub_get_subscribers_client acc topic_name isConnected client_id rest

/-- `sub_get_subscribers` (`c_mqtt.c:4169`): walk all client records and
collect, as a json object keyed by client id, the subscriptions selected
for the published topic. -/
def sub_get_subscribers (clients : List MqttClient) (topic_name : String) :
    List (String × List (String × Subscription)) :=
  clients.foldl
    (fun acc client =>
      if client.subscriptions.length = 0 then acc
      else sub_get_subscribers_client acc topic_name client.isConnected client.id
        client.subscriptions)
    []

/-- Split a character string at `/` into topic levels. -/
def splitOnSlash : List Char → List (List Char)
  | [] => [[]]
  | c :: rest =>
    let r := splitOnSlash rest
    if c = '/' then [] :: r
    else
      match r with
      | h :: t => (c :: h) :: t
      | [] => [[c]]

/-- Modelled from the spec (§4.4): MQTT topic-filter matching on the levels
of a topic, `+` matching exactly one level and `#` matching zero or more
trailing levels. -/
def mqttMatchLevels : List (List Char) → List (List Char) → Bool
  | [], [] => true
  | [['#']], _ => true
  | f :: fs, t :: ts => if f = ['+'] ∨ f = t then mqttMatchLevels fs ts else false
  | _, _ => false

/-- Modelled from the spec (§4.4 `matching(topic)`): MQTT wildcard topic
matching — `+` = exactly one level, `#` = zero-or-more trailing levels,
`$`-prefixed topics never match a filter starting with `#` or `+` at the
root. -/
def mqttTopicMatches (filter topic : String) : Bool :=
  if topic.data.headD ' ' = '$' ∧ (filter.data.headD ' ' = '+' ∨ filter.data.headD ' ' = '#')
  then false
  else mqttMatchLevels (splitOnSlash filter.data) (splitOnSlash topic.data)

/-! ### Message-id generation (`mosquitto__mid_generate`, `c_mqtt.c:4719`) -/

/-- `gobj_save_resource`: store the record under its id (replace in
place). -/
def save_resource (clients : List (String × MqttClient)) (client_id : String)
    (client : MqttClient) : List (String × MqttClient) :=
  set_assoc clients client_id client

/-- The default client record observed when the resource is absent
(`kw_get_int(NULL, ..., 0)` semantics). -/
def emptyClient : MqttClient :=
  { id := "", isConnected := false, last_mid := 0, keepalive := 0, max_qos := 0,
    subscriptions := [] }

/-- `mosquitto__mid_generate` (`c_mqtt.c:4719`): load the client record,
read `last_mid` (cast to `uint16_t`), increment it skipping 0 at
wrap-around, call `gobj_save_resource(client)` — note the function never
writes the incremented value into the record before saving — and return
the incremented value.  Returns the mid and the resource table after the
save. -/
def mosquitto__mid_generate (clients : List (String × MqttClient)) (client_id : String) :
    Nat × List (String × MqttClient) :=
  let client := (clients.lookup client_id).getD emptyClient
  let last_mid := client.last_mid % 65536
  let m1 := (last_mid + 1) % 65536
  let m2 := if m1 = 0 then (m1 + 1) % 65536 else m1
  (m2, save_resource clients client_id client)

/-! ### CONNACK keepalive clamp (`connect_on_authorised`, `c_mqtt.c:5474-5486`) -/

/-- `mqtt_property_add_int16` (`c_mqtt.c:2332`): `json_object_set_new` of an
integer value (passed as `uint16_t`) under the property name. -/
def mqtt_property_add_int16 (proplist : List (String × Nat)) (name : String) (value : Nat) :
    List (String × Nat) :=
  set_assoc proplist name (value % 65536)

/-- Outcome of the keepalive section of `connect_on_authorised`: either
proceed towards CONNACK(Accepted) with the updated client record and
CONNACK property list, or send CONNACK(reason) and close (`return -1`). -/
inductive KeepaliveOutcome where
  | proceed (client : MqttClient) (connack_props : List (String × Nat))
  | reject (ack : Nat) (reason : Nat)
deriving DecidableEq, Repr

/-- The keepalive clamp of `connect_on_authorised` (`c_mqtt.c:5475-5486`):
when `max_keepalive` is set and the peer keepalive exceeds it or is 0, the
client record's keepalive is set to `max_keepalive`; a v5 client then gets
a `server-keep-alive` CONNACK property carrying `priv->keepalive` (the
peer's original value), while a v3.* client is refused with
CONNACK(IdentifierRejected). -/
def connect_on_authorised_keepalive (max_keepalive keepalive protocol_version : Nat)
    (connect_ack : Nat) (client : MqttClient) (connack_props : List (String × Nat)) :
    KeepaliveOutcome :=
  if max_keepalive ≠ 0 ∧ (keepalive > max_keepalive ∨ keepalive = 0) then
    let client := { client with keepalive := max_keepalive }
    if protocol_version = mosq_p_mqtt5 then
      .proceed client (mqtt_property_add_int16 connack_props "server-keep-alive" keepalive)
    else
      .reject connect_ack CONNACK_REFUSED_IDENTIFIER_REJECTED
  else
    .proceed client connack_props

/-! ### Password verification (`check_passwd` / `mqtt_check_password`,
`c_mqtt.c:1602` / `c_mqtt.c:1748`)

PBKDF2-HMAC itself is external OpenSSL crypto; it enters the model as an
abstract function `pbkdf2 password salt iterations outlen`, and the set of
digests `EVP_get_digestbyname` knows as an abstract predicate.  Strings are
byte lists. -/

def PW_DEFAULT_ITERATIONS : Nat := 101
def EVP_MAX_MD_SIZE : Nat := 64

/-- `check_passwd` (`c_mqtt.c:1602`).  `hash` and `salt` are the strings
taken verbatim from the credential record (which stores them in base64):
the function passes `salt` directly as PBKDF2 salt bytes, requests
`EVP_MAX_MD_SIZE` = 64 output bytes (the initial value of `hash_len_`,
which `PKCS5_PBKDF2_HMAC` does not update), and `memcmp`s the raw output
against the `hash` string.  No base64 decoding happens anywhere in it. -/
def check_passwd (pbkdf2 : List Nat → List Nat → Nat → Nat → List Nat)
    (digest_known : String → Bool) (password hash salt : List Nat)
    (algorithm : String) (iterations : Nat) : Int :=
  let alg := if algorithm = "" then "sha512" else algorithm
  if ¬ digest_known alg then -1
  else
    let hash_ := pbkdf2 password salt iterations EVP_MAX_MD_SIZE
    if hash.length = EVP_MAX_MD_SIZE ∧ hash_.take EVP_MAX_MD_SIZE = hash then 0 else -1

/-- A credential of the store
(`{secretData:{value, salt}, credentialData:{algorithm, hashIterations}}`);
`value` and `salt` hold the stored (base64) text as byte lists. -/
structure Credential where
  value : List Nat
  salt : List Nat
  algorithm : String
  hashIterations : Nat
deriving DecidableEq, Repr

/-- Credential loop of `mqtt_check_password` (`c_mqtt.c:1783-1810`). -/
def mqtt_check_password_loop (pbkdf2 : List Nat → List Nat → Nat → Nat → List Nat)
    (digest_known : String → Bool) (password : List Nat) : List Credential → Int
  | [] => -1
  | c :: rest =>
    if check_passwd pbkdf2 digest_known password c.value c.salt c.algorithm
        c.hashIterations = 0 then 0
    else mqtt_check_password_loop pbkdf2 digest_known password rest

/-- `mqtt_check_password` (`c_mqtt.c:1748`): 0 = authorized, -1 =
NotAuthorized (the caller then sends CONNACK NotAuthorized and closes). -/
def mqtt_check_password (pbkdf2 : List Nat → List Nat → Nat → Nat → List Nat)
    (digest_known : String → Bool) (allow_anonymous : Bool) (username : String)
    (password : List Nat) (users : List (String × List Credential)) : Int :=
  if allow_anonymous then 0
  else if username = "" then -1
  else
    match users.lookup username with
    | none => -1
    | some creds => mqtt_check_password_loop pbkdf2 digest_known password creds

/-- Base64 value of an alphabet character (`A-Z a-z 0-9 + /`). -/
def b64val (c : Nat) : Option Nat :=
  if 65 ≤ c ∧ c ≤ 90 then some (c - 65)
  else if 97 ≤ c ∧ c ≤ 122 then some (c - 71)
  else if 48 ≤ c ∧ c ≤ 57 then some (c + 4)
  else if c = 43 then some 62
  else if c = 47 then some 63
  else none

/-- Standard base64 decoding (4 characters to 3 bytes, `=` padding). -/
def base64_decode : List Nat → Option (List Nat)
  | [] => some []
  | c1 :: c2 :: c3 :: c4 :: rest =>
    (match b64val c1, b64val c2 with
     | some v1, some v2 =>
       if c3 = 61 ∧ c4 = 61 ∧ rest = [] then some [v1 * 4 + v2 / 16]
       else
         (match b64val c3 with
          | some v3 =>
            if c4 = 61 ∧ rest = [] then some [v1 * 4 + v2 / 16, v2 % 16 * 16 + v3 / 4]
            else
              (match b64val c4 with
               | some v4 =>
                 (base64_decode rest).map
                   (fun tl => (v1 * 4 + v2 / 16) :: (v2 % 16 * 16 + v3 / 4) ::
                     (v3 % 4 * 64 + v4) :: tl)
               | none => none)
          | none => none)
     | _, _ => none)
  | _ => none

/-- Modelled from the spec (§4.9 `check_password`, steps 1-4): decode hash
and salt from base64, reject unknown digests, compute
`PBKDF2(password, salt, iterations, outlen = len(stored_hash))` and
compare with the decoded hash. -/
def spec_check_password (pbkdf2 : List Nat → List Nat → Nat → Nat → List Nat)
    (digest_known : String → Bool) (password hash_b64 salt_b64 : List Nat)
    (algorithm : String) (iterations : Nat) : Bool :=
  match base64_decode hash_b64, base64_decode salt_b64 with
  | some hash, some salt =>
    let alg := if algorithm = "" then "sha512" else algorithm
    if digest_known alg then pbkdf2 password salt iterations hash.length = hash
    else false
  | _, _ => false

/-- Base64 encoding of one 3-byte group plus padding logic (standard
alphabet), used to model `gbuf_string2base64`. -/
def b64chr (v : Nat) : Nat :=
  if v < 26 then v + 65
  else if v < 52 then v + 71
  else if v < 62 then v - 4
  else if v = 62 then 43
  else 47

/-- Standard base64 encoding (3 bytes to 4 characters, `=` padding). -/
def base64_encode : List Nat → List Nat
  | [] => []
  | [b1] => [b64chr (b1 / 4), b64chr (b1 % 4 * 16), 61, 61]
  | [b1, b2] => [b64chr (b1 / 4), b64chr (b1 % 4 * 16 + b2 / 16), b64chr (b2 % 16 * 4), 61]
  | b1 :: b2 :: b3 :: rest =>
    b64chr (b1 / 4) :: b64chr (b1 % 4 * 16 + b2 / 16) ::
      b64chr (b2 % 16 * 4 + b3 / 64) :: b64chr (b3 % 64) :: base64_encode rest

/-- `hash_password` (`c_mqtt.c:1670`): given the 12 random salt bytes drawn
by `RAND_bytes`, compute 64 bytes of PBKDF2 output and store *base64
encodings* of both hash and salt in the credential record.  Returns `none`
when the digest is unknown. -/
def hash_password (pbkdf2 : List Nat → List Nat → Nat → Nat → List Nat)
    (digest_known : String → Bool) (password salt : List Nat) (algorithm : String)
    (iterations : Int) : Option Credential :=
  let alg := if algorithm = "" then "sha512" else algorithm
  let iters : Nat := if iterations < 1 then PW_DEFAULT_ITERATIONS else iterations.toNat
  if ¬ digest_known alg then none
  else
    let hash := pbkdf2 password salt iters 64
    some ⟨base64_encode (hash.take 64), base64_encode salt, alg, iters⟩

/-- The concrete PBKDF2 oracle used in the C2 demonstration: `outlen` zero
bytes, for every input. -/
def pbkdf2_zero : List Nat → List Nat → Nat → Nat → List Nat :=
  fun _ _ _ outlen => List.replicate outlen 0

/-- The digest table for the demonstration: only "sha512" is known. -/
def sha512_only : String → Bool := fun a => a = "sha512"

/-! ### PUBLISH handling (`handle_publish`, `c_mqtt.c:6908`, modelled from
the publish-topic check at line 7126 to the end of the function; topic and
payload arrive already parsed and topic-alias-resolved) -/

def MOSQ_ERR_INVAL : Int := -3
def TOPIC_HIERARCHY_LIMIT : Nat := 200

/-- `mosquitto_pub_topic_check` (`c_mqtt.c:4094`): reject `+`/`#` anywhere
(`MOSQ_ERR_INVAL`), length over 65535 and more than 200 `/`s (-1). -/
def mosquitto_pub_topic_check (topic : String) : Int :=
  if topic.data.any (fun c => c = '+' ∨ c = '#') then MOSQ_ERR_INVAL
  else if topic.data.length > 65535 then -1
  else if (topic.data.filter (fun c => c = '/')).length > TOPIC_HIERARCHY_LIMIT then -1
  else 0

/-- `strncmp(msg->topic, "$CONTROL/", 9) == 0` (`c_mqtt.c:7201`). -/
def topic_is_control (topic : String) : Bool :=
  topic.data.take 9 = "$CONTROL/".data

/-- A jansson value, as far as the code under scrutiny observes one. -/
inductive Jval where
  | arr (xs : List Jval)
  | obj (kvs : List (String × Jval))
deriving Repr

/-- jansson `json_array_size`: the number of elements of an array, and 0
for any value that is not a JSON array. -/
def json_array_size : Jval → Nat
  | .arr xs => xs.length
  | .obj _ => 0

/-- The `jn_subscribers` result of `sub_get_subscribers` as the json value
it is: an *object* keyed by client id (each value again an object). -/
def subscribers_to_jval (subs : List (String × List (String × Subscription))) : Jval :=
  .obj (subs.map (fun p =>
    (p.1, Jval.obj [("subscriptions", Jval.obj (p.2.map (fun q => (q.1, Jval.obj []))))])))

/-- `struct mosquitto_msg_store` (the fields the modelled code reads);
`payloadlen` is `payload.length`. -/
structure MsgStore where
  topic : String
  payload : List Nat
  qos : Nat
  retain : Bool
  source_mid : Nat
deriving DecidableEq, Repr

/-- `struct mosquitto_client_msg` as queued on `dl_msgs_in`
(`state = mosq_ms_wait_for_pubrel = 7`, direction in). -/
structure ClientMsg where
  store : MsgStore
  mid : Nat
  qos : Nat
  retain : Bool
  state : Nat
deriving DecidableEq, Repr

/-- Wire output and router effects produced by the modelled handlers.  A
`queue` event is one invocation of `XXX_sub__messages_queue`
(`c_mqtt.c:4805`), i.e. one delivery of the message to the router /
downstream subscribers, carrying the `jn_subscribers` set and the
arguments the code passes. -/
inductive MqttOut where
  | puback (mid rc : Nat)
  | pubrec (mid rc : Nat)
  | pubcomp (mid : Nat)
  | connack (ack rc : Nat)
  | queue (subscribers : List (String × List (String × Subscription)))
      (topic : String) (qos : Nat) (retain : Bool)
deriving DecidableEq, Repr

/-- Broker-side state the modelled handlers touch: the client registry and
the incoming QoS-2 queue `dl_msgs_in`. -/
structure BrokerState where
  clients : List MqttClient
  dl_msgs_in : List ClientMsg
deriving Repr

def is_queue_event : MqttOut → Bool
  | .queue _ _ _ _ => true
  | _ => false

/-- `db_message_store_find` (`c_mqtt.c:4213`): first queued message whose
store's `source_mid` equals `mid`. -/
def db_message_store_find : List ClientMsg → Nat → Option MsgStore
  | [], _ => none
  | t :: rest, mid =>
    if t.store.source_mid = mid then some t.store else db_message_store_find rest mid

/-- `db__message_remove_incoming` (`c_mqtt.c:4290`): delete the first entry
with this `mid` (requiring its qos to be 2). -/
def db__message_remove_incoming : List ClientMsg → Nat → Int × List ClientMsg
  | [], _ => (MOSQ_ERR_NOT_FOUND, [])
  | t :: rest, mid =>
    if t.mid = mid then
      if t.qos ≠ 2 then (MOSQ_ERR_PROTOCOL, t :: rest)
      else (MOSQ_ERR_SUCCESS, rest)
    else
      let r := db__message_remove_incoming rest mid
      (r.1, t :: r.2)

/-- `XXX_save_message_to_pubrec` (`c_mqtt.c:4664`): for qos 2, queue a copy
of the stored message on `dl_msgs_in` in state `wait_for_pubrel`, with the
message qos clamped to `max_qos`.  (`dl_insert`'s position — head or tail —
is not visible in this repository's sources; the queue is modelled with
head insertion, and all stated properties are insensitive to the choice.) -/
def XXX_save_message_to_pubrec (max_qos : Nat) (q : List ClientMsg) (mid qos : Nat)
    (retain : Bool) (stored : MsgStore) : List ClientMsg :=
  if qos = 2 then
    ⟨stored, mid, if qos > max_qos then max_qos else qos, retain, 7⟩ :: q
  else q

/-- `process_bad_message` (`c_mqtt.c:7314-7330`): drop a qos 0 message
silently, answer qos 1 with PUBACK(reason) and qos 2 with
PUBREC(reason). -/
def process_bad_message (st : BrokerState) (qos mid reason : Nat) :
    Int × List MqttOut × BrokerState :=
  match qos with
  | 0 => (MOSQ_ERR_SUCCESS, [], st)
  | 1 => (MOSQ_ERR_SUCCESS, [.puback mid reason], st)
  | _ => (MOSQ_ERR_SUCCESS, [.pubrec mid reason], st)

/-- `handle_publish` from the publish-topic check (`c_mqtt.c:7126`) to the
end: topic check, `message_size_limit`, the disabled ACL check (`rc = 0`),
the `$CONTROL/` refusal, duplicate detection by source mid, storing, and
the qos switch.  `db__ready_for_flight` is the constant `true`
(`c_mqtt.c:4370`), so the quota branch is unreachable.  Returns the C
return code, the produced outputs and the new state. -/
def handle_publish_core (st : BrokerState) (protocol_version max_qos message_size_limit : Nat)
    (qos : Nat) (retain : Bool) (topic : String) (payload : List Nat) (mid : Nat) :
    Int × List MqttOut × BrokerState :=
  if mosquitto_pub_topic_check topic < 0 then (MOSQ_ERR_MALFORMED_PACKET, [], st)
  else if payload.length ≠ 0 ∧ message_size_limit ≠ 0 ∧ payload.length > message_size_limit
  then process_bad_message st qos mid MQTT_RC_PACKET_TOO_LARGE
  else if topic_is_control topic then
    process_bad_message st qos mid MQTT_RC_IMPLEMENTATION_SPECIFIC
  else
    let msg : MsgStore := ⟨topic, payload, qos, retain, if qos > 0 then mid else 0⟩
    let stored0 := if qos > 0 then db_message_store_find st.dl_msgs_in mid else none
    let step :=
      match stored0 with
      | some s =>
        if msg.source_mid ≠ 0 ∧ (s.qos ≠ msg.qos ∨ s.payload.length ≠ msg.payload.length ∨
            s.topic ≠ msg.topic ∨ s.payload ≠ msg.payload) then
          ((db__message_remove_incoming st.dl_msgs_in mid).2, msg, false)
        else (st.dl_msgs_in, s, true)
      | none => (st.dl_msgs_in, msg, false)
    let q1 := step.1
    let stored := step.2.1
    let dup := step.2.2
    match stored.qos with
    | 0 =>
      (MOSQ_ERR_SUCCESS,
        [.queue (sub_get_subscribers st.clients stored.topic) stored.topic stored.qos
          stored.retain],
        { st with dl_msgs_in := q1 })
    | 1 =>
      let jn_subscribers := sub_get_subscribers st.clients stored.topic
      let has_subscribers := json_array_size (subscribers_to_jval jn_subscribers) ≠ 0
      let ackrc :=
        if has_subscribers ∨ protocol_version ≠ mosq_p_mqtt5 then MQTT_RC_SUCCESS
        else MQTT_RC_NO_MATCHING_SUBSCRIBERS
      (MOSQ_ERR_SUCCESS,
        [.queue jn_subscribers stored.topic stored.qos stored.retain, .puback mid ackrc],
        { st with dl_msgs_in := q1 })
    | _ =>
      let q2 :=
        if dup = false then
          XXX_save_message_to_pubrec max_qos q1 stored.source_mid stored.qos stored.retain
            stored
        else q1
      (MOSQ_ERR_SUCCESS, [.pubrec stored.source_mid 0], { st with dl_msgs_in := q2 })

/-- `db__message_release_incoming` (`c_mqtt.c:4234`): find the first queued
entry with this `mid`, deliver its stored message to the matching
subscribers once, and delete it.  (The `topic == NULL` branch arises only
for ACL-denied messages; the ACL check is compiled out at `c_mqtt.c:7171`,
so queued topics are always present.) -/
def db__message_release_incoming (clients : List MqttClient) :
    List ClientMsg → Nat → Int × List MqttOut × List ClientMsg
  | [], _ => (MOSQ_ERR_NOT_FOUND, [], [])
  | t :: rest, mid =>
    if t.mid = mid then
      if t.store.qos ≠ 2 then (MOSQ_ERR_PROTOCOL, [], t :: rest)
      else
        (MOSQ_ERR_SUCCESS,
          [.queue (sub_get_subscribers clients t.store.topic) t.store.topic 2 t.store.retain],
          rest)
    else
      let r := db__message_release_incoming clients rest mid
      (r.1, r.2.1, t :: r.2.2)

/-- `handle__pubrel` (`c_mqtt.c:6657`), server side, after the mid and the
optional v5 reason/properties have been parsed: release the stored QoS-2
message (a missing mid still gets a PUBCOMP, for repeated PUBRELs after a
reconnect) and reply PUBCOMP. -/
def handle__pubrel_core (st : BrokerState) (protocol_version flags mid : Nat) :
    Int × List MqttOut × BrokerState :=
  if protocol_version ≠ mosq_p_mqtt31 ∧ flags ≠ 2 then (MOSQ_ERR_MALFORMED_PACKET, [], st)
  else if mid = 0 then (MOSQ_ERR_PROTOCOL, [], st)
  else
    let r := db__message_release_incoming st.clients st.dl_msgs_in mid
    if r.1 = MOSQ_ERR_NOT_FOUND ∨ r.1 = MOSQ_ERR_SUCCESS then
      (MOSQ_ERR_SUCCESS, r.2.1 ++ [.pubcomp mid], { st with dl_msgs_in := r.2.2 })
    else (r.1, r.2.1, { st with dl_msgs_in := r.2.2 })

/-! ### Wire readers (`mqtt_read_*`, `c_mqtt.c:2686-2858`); a gbuffer is a
byte list consumed from the front, each read returning the value and the
remaining bytes -/

def MQTT_RC_RETAIN_NOT_SUPPORTED : Nat := 154
def MQTT_RC_QOS_NOT_SUPPORTED : Nat := 155

def CMD_CONNECT : Nat := 0x10
def CMD_CONNACK : Nat := 0x20
def CMD_PUBLISH : Nat := 0x30
def CMD_SUBSCRIBE : Nat := 0x80
def CMD_UNSUBSCRIBE : Nat := 0xA0
def CMD_DISCONNECT : Nat := 0xE0
def CMD_AUTH : Nat := 0xF0
def CMD_WILL : Nat := 0x100

def mqtt_read_byte : List Nat → Except Int (Nat × List Nat)
  | [] => .error MOSQ_ERR_MALFORMED_PACKET
  | b :: rest => .ok (b % 256, rest)

def mqtt_read_uint16 (l : List Nat) : Except Int (Nat × List Nat) :=
  match l with
  | msb :: lsb :: rest => .ok (msb % 256 * 256 + lsb % 256, rest)
  | _ => .error MOSQ_ERR_MALFORMED_PACKET

def mqtt_read_uint32 (l : List Nat) : Except Int (Nat × List Nat) :=
  match l with
  | b0 :: b1 :: b2 :: b3 :: rest =>
    .ok (((b0 % 256 * 256 + b1 % 256) * 256 + b2 % 256) * 256 + b3 % 256, rest)
  | _ => .error MOSQ_ERR_MALFORMED_PACKET

def mqtt_read_bytes (n : Nat) (l : List Nat) : Except Int (List Nat × List Nat) :=
  if l.length < n then .error MOSQ_ERR_MALFORMED_PACKET
  else .ok (l.take n, l.drop n)

/-- `mqtt_read_binary` (`c_mqtt.c:2786`): 2-byte big-endian length prefix,
then that many bytes. -/
def mqtt_read_binary (l : List Nat) : Except Int (List Nat × Nat × List Nat) := do
  let (slen, rest) ← mqtt_read_uint16 l
  if slen = 0 then .ok ([], 0, rest)
  else if rest.length < slen then .error MOSQ_ERR_MALFORMED_PACKET
  else .ok (rest.take slen, slen, rest.drop slen)

/-- `mqtt_read_string` (`c_mqtt.c:2831`): binary read followed by UTF-8
validation of non-empty strings. -/
def mqtt_read_string (l : List Nat) : Except Int (List Nat × Nat × List Nat) := do
  let (s, slen, rest) ← mqtt_read_binary l
  if slen = 0 then .ok (s, slen, rest)
  else if mosquitto_validate_utf8 s < 0 then .error MOSQ_ERR_MALFORMED_UTF8
  else .ok (s, slen, rest)

/-- `mqtt_read_varint` on a gbuffer: value, bytes consumed, and the rest. -/
def mqtt_read_varint_buf (l : List Nat) : Except Int (Nat × Nat × List Nat) :=
  match mqtt_read_varint l with
  | .ok (v, n) => .ok (v, n, l.drop n)
  | .error e => .error e

/-! ### v5 property reader (`property_read` / `property_read_all`,
`c_mqtt.c:3113` / `c_mqtt.c:3365`) -/

/-- The value a property record stores (`"value"`, binary values as
base64). -/
inductive PropValue where
  | int (v : Nat)
  | str (s : List Nat)
  | bin (b64 : List Nat)
  | pair (name value : List Nat)
deriving DecidableEq, Repr

/-- A parsed property (`{identifier, name, type, value}`). -/
structure MqttProp where
  identifier : Nat
  value : PropValue
deriving DecidableEq, Repr

/-- `mqtt_property_identifier_to_string` (`c_mqtt.c:1268`). -/
def mqtt_property_identifier_to_string (identifier : Nat) : Option String :=
  match identifier with
  | 1 => some "payload-format-indicator"
  | 2 => some "message-expiry-interval"
  | 3 => some "content-type"
  | 8 => some "response-topic"
  | 9 => some "correlation-data"
  | 11 => some "subscription-identifier"
  | 17 => some "session-expiry-interval"
  | 18 => some "assigned-client-identifier"
  | 19 => some "server-keep-alive"
  | 21 => some "authentication-method"
  | 22 => some "authentication-data"
  | 23 => some "request-problem-information"
  | 24 => some "will-delay-interval"
  | 25 => some "request-response-information"
  | 26 => some "response-information"
  | 28 => some "server-reference"
  | 31 => some "reason-string"
  | 33 => some "receive-maximum"
  | 34 => some "topic-alias-maximum"
  | 35 => some "topic-alias"
  | 36 => some "maximum-qos"
  | 37 => some "retain-available"
  | 38 => some "user-property"
  | 39 => some "maximum-packet-size"
  | 40 => some "wildcard-subscription-available"
  | 41 => some "subscription-identifier-available"
  | 42 => some "shared-subscription-available"
  | _ => none

/-- `uint32_t` subtraction with wrap-around, for the `*len -= ...`
accounting of the property reader. -/
def u32sub (a b : Nat) : Nat := (a + 4294967296 - b % 4294967296) % 4294967296

/-- `kw_has_key` on the property object. -/
def props_has_key (props : List (String × MqttProp)) (k : String) : Bool :=
  (props.lookup k).isSome

/-- `property_read` (`c_mqtt.c:3113`): read one {varint identifier, typed
value} pair, rejecting a duplicate identifier (other than user-property)
with `MOSQ_ERR_DUPLICATE_PROPERTY`.  Returns the remaining buffer, the
remaining property-section length and the updated property object. -/
def property_read (gbuf : List Nat) (len : Nat) (props : List (String × MqttProp)) :
    Except Int (List Nat × Nat × List (String × MqttProp)) := do
  let (property_identifier, _, g1) ← mqtt_read_varint_buf gbuf
  let name? := mqtt_property_identifier_to_string property_identifier
  let is_dup : Bool := match name? with
    | some nm => props_has_key props nm
    | none => false
  if property_identifier ≠ 38 ∧ is_dup then
    .error MOSQ_ERR_DUPLICATE_PROPERTY
  else
    let len := u32sub len 1
    match property_identifier with
    | 1 | 23 | 25 | 36 | 37 | 40 | 41 | 42 => do
      let (byte, g2) ← mqtt_read_byte g1
      let len := u32sub len 1
      .ok (g2, len, set_assoc props (name?.getD "") ⟨property_identifier, .int byte⟩)
    | 19 | 33 | 34 | 35 => do
      let (v, g2) ← mqtt_read_uint16 g1
      let len := u32sub len 2
      .ok (g2, len, set_assoc props (name?.getD "") ⟨property_identifier, .int v⟩)
    | 2 | 17 | 24 | 39 => do
      let (v, g2) ← mqtt_read_uint32 g1
      let len := u32sub len 4
      .ok (g2, len, set_assoc props (name?.getD "") ⟨property_identifier, .int v⟩)
    | 11 => do
      let (v, byte_count, g2) ← mqtt_read_varint_buf g1
      let len := u32sub len byte_count
      .ok (g2, len, set_assoc props (name?.getD "") ⟨property_identifier, .int v⟩)
    | 3 | 8 | 18 | 21 | 26 | 28 | 31 =>
      -- any failed read, including invalid UTF-8, yields MOSQ_ERR_MALFORMED_PACKET
      match mqtt_read_string g1 with
      | .error _ => .error MOSQ_ERR_MALFORMED_PACKET
      | .ok (s, slen, g2) =>
        let len := u32sub len (2 + slen)
        .ok (g2, len, set_assoc props (name?.getD "") ⟨property_identifier, .str s⟩)
    | 22 | 9 => do
      let (s, slen, g2) ← mqtt_read_binary g1
      let len := u32sub len (2 + slen)
      .ok (g2, len,
        set_assoc props (name?.getD "") ⟨property_identifier, .bin (base64_encode s)⟩)
    | 38 =>
      match mqtt_read_string g1 with
      | .error _ => .error MOSQ_ERR_MALFORMED_PACKET
      | .ok (s1, slen1, g2) =>
        let len := u32sub len (2 + slen1)
        match mqtt_read_string g2 with
        | .error _ => .error MOSQ_ERR_MALFORMED_PACKET
        | .ok (s2, slen2, g3) =>
          let len := u32sub len (2 + slen2)
          .ok (g3, len, set_assoc props "user-property" ⟨property_identifier, .pair s1 s2⟩)
    | _ => .error MOSQ_ERR_MALFORMED_PACKET

/-- `mosquitto_property_check_command` (`c_mqtt.c:2908`): the
property-command matrix. -/
def mosquitto_property_check_command (command identifier : Nat) : Int :=
  match identifier with
  | 1 | 2 | 3 | 8 | 9 =>
    if command ≠ CMD_PUBLISH ∧ command ≠ CMD_WILL then MOSQ_ERR_PROTOCOL else 0
  | 11 =>
    if command ≠ CMD_PUBLISH ∧ command ≠ CMD_SUBSCRIBE then MOSQ_ERR_PROTOCOL else 0
  | 17 =>
    if command ≠ CMD_CONNECT ∧ command ≠ CMD_CONNACK ∧ command ≠ CMD_DISCONNECT then
      MOSQ_ERR_PROTOCOL else 0
  | 21 | 22 =>
    if command ≠ CMD_CONNECT ∧ command ≠ CMD_CONNACK ∧ command ≠ CMD_AUTH then
      MOSQ_ERR_PROTOCOL else 0
  | 23 | 25 =>
    if command ≠ CMD_CONNECT then MOSQ_ERR_PROTOCOL else 0
  | 28 =>
    if command ≠ CMD_CONNACK ∧ command ≠ CMD_DISCONNECT then MOSQ_ERR_PROTOCOL else 0
  | 31 =>
    if command = CMD_CONNECT ∨ command = CMD_PUBLISH ∨ command = CMD_SUBSCRIBE ∨
        command = CMD_UNSUBSCRIBE then MOSQ_ERR_PROTOCOL else 0
  | 33 | 34 | 39 =>
    if command ≠ CMD_CONNECT ∧ command ≠ CMD_CONNACK then MOSQ_ERR_PROTOCOL else 0
  | 35 =>
    if command ≠ CMD_PUBLISH then MOSQ_ERR_PROTOCOL else 0
  | 18 | 19 | 26 | 36 | 37 | 40 | 41 | 42 =>
    if command ≠ CMD_CONNACK then MOSQ_ERR_PROTOCOL else 0
  | 24 =>
    if command ≠ CMD_WILL then MOSQ_ERR_PROTOCOL else 0
  | 38 => 0
  | _ => MOSQ_ERR_PROTOCOL

/-- `kw_get_int(property, "value", 0, ...)`. -/
def prop_int_value (p : MqttProp) : Nat :=
  match p.value with
  | .int v => v
  | _ => 0

/-- `mqtt_property_check_all` (`c_mqtt.c:3294`): per-property value checks
and the property-command matrix. -/
def mqtt_property_check_all (command : Nat) : List (String × MqttProp) → Int
  | [] => 0
  | (_, p) :: rest =>
    if (p.identifier = 23 ∨ p.identifier = 1 ∨ p.identifier = 25 ∨ p.identifier = 36 ∨
        p.identifier = 37 ∨ p.identifier = 40 ∨ p.identifier = 41 ∨ p.identifier = 42) ∧
        prop_int_value p > 1 then
      MOSQ_ERR_PROTOCOL
    else if p.identifier = 39 ∧ prop_int_value p = 0 then MOSQ_ERR_PROTOCOL
    else if (p.identifier = 33 ∨ p.identifier = 35) ∧ prop_int_value p = 0 then
      MOSQ_ERR_PROTOCOL
    else if mosquitto_property_check_command command p.identifier < 0 then
      mosquitto_property_check_command command p.identifier
    else mqtt_property_check_all command rest

/-- Loop of `property_read_all` (`c_mqtt.c:3380-3389`): `while(proplen > 0)
property_read(...)`.  Each successful `property_read` consumes at least the
identifier byte, so the buffer length bounds the iteration count; the fuel
argument carries that bound. -/
def property_read_all_loop :
    Nat → List Nat → Nat → List (String × MqttProp) →
    Except Int (List (String × MqttProp) × List Nat)
  | _, gbuf, 0, props => .ok (props, gbuf)
  | 0, _, _ + 1, _ => .error MOSQ_ERR_MALFORMED_PACKET
  | fuel + 1, gbuf, len + 1, props => do
    let (g1, len1, props1) ← property_read gbuf (len + 1) props
    property_read_all_loop fuel g1 len1 props1

/-- `property_read_all` (`c_mqtt.c:3365`): read the varint property-section
length, the properties, then validate against the command.  `.error e`
models the C function returning NULL with `*error = e`; when the leading
varint itself fails the C function returns NULL leaving `*error` at 0. -/
def property_read_all (command : Nat) (gbuf : List Nat) :
    Except Int (List (String × MqttProp) × List Nat) := do
  match mqtt_read_varint_buf gbuf with
  | .error _ => .error 0
  | .ok (proplen, _, g1) =>
    let (props, g2) ← property_read_all_loop (g1.length + 1) g1 proplen []
    if mqtt_property_check_all command props < 0 then
      .error (mqtt_property_check_all command props)
    else .ok (props, g2)

/-! ### CONNECT handling (`handle_connect`, `c_mqtt.c:5545`, modelled from
the start of the function through the v5 property section, line 5807; the
remainder of the function — client id, will, credentials, authentication —
is represented by the `ConnectParsed` continuation record) -/

/-- Everything `handle_connect` has established once the property section
(line 5807) is passed. -/
structure ConnectParsed where
  protocol_version : Nat
  is_bridge : Bool
  clean_start : Bool
  session_expiry_interval : Nat
  will : Bool
  will_qos : Nat
  will_retain : Bool
  password_flag : Bool
  username_flag : Bool
  keepalive : Nat
  props : List (String × MqttProp)
  remaining : List Nat
deriving DecidableEq, Repr

/-- `"MQIsdp"` / `"MQTT"` as byte lists. -/
def PROTOCOL_NAME_v31 : List Nat := [77, 81, 73, 115, 100, 112]
def PROTOCOL_NAME : List Nat := [77, 81, 84, 84]

/-- The content `strcmp` sees in a NUL-terminated buffer: the bytes up to
the first 0 (`protocol_name[ll] = 0` at `c_mqtt.c:5599`). -/
def cstring (l : List Nat) : List Nat := l.takeWhile (· ≠ 0)

/-- `handle_connect` (`c_mqtt.c:5545`) from the start of the function
through the property section: protocol name and version ladder, connect
flags, keepalive, v5 properties.  Returns the C return code, the CONNACKs
sent on the way, and — when this prefix of the function succeeds — the
parsed values with the unconsumed buffer. -/
def handle_connect_head (in_session iamServer : Bool) (frame_flags : Nat)
    (retain_available : Bool) (max_qos : Nat) (gbuf : List Nat) :
    Int × List MqttOut × Option ConnectParsed :=
  if in_session then (-1, [], none)
  else if ¬iamServer then (-1, [], none)
  else
    match mqtt_read_uint16 gbuf with
    | .error _ => (-1, [], none)
    | .ok (ll, g1) =>
      if ll ≠ 4 ∧ ll ≠ 6 then (-1, [], none)
      else
        match mqtt_read_bytes ll g1 with
        | .error _ => (-1, [], none)
        | .ok (protocol_name, g2) =>
          match mqtt_read_byte g2 with
          | .error _ => (-1, [], none)
          | .ok (version_byte, g3) =>
            -- protocol-version ladder (c_mqtt.c:5605-5666)
            let ladder : Option (Nat × Bool) × List MqttOut :=
              if cstring protocol_name = PROTOCOL_NAME_v31 then
                if version_byte &&& 0x7F ≠ 3 then
                  (none, [.connack 0 CONNACK_REFUSED_PROTOCOL_VERSION])
                else (some (mosq_p_mqtt31, version_byte &&& 0x80 = 0x80), [])
              else if cstring protocol_name = PROTOCOL_NAME then
                if version_byte &&& 0x7F = 4 then
                  if frame_flags ≠ 0 then (none, [])
                  else (some (mosq_p_mqtt311, version_byte &&& 0x80 = 0x80), [])
                else if version_byte &&& 0x7F = 5 then
                  if frame_flags ≠ 0 then (none, [])
                  else (some (mosq_p_mqtt5, false), [])
                else (none, [.connack 0 CONNACK_REFUSED_PROTOCOL_VERSION])
              else (none, [])
            match ladder with
            | (none, outs) => (-1, outs, none)
            | (some (protocol_version, is_bridge), outs) =>
              match mqtt_read_byte g3 with
              | .error _ => (-1, outs, none)
              | .ok (connect_flags, g4) =>
                if (protocol_version = mosq_p_mqtt311 ∨ protocol_version = mosq_p_mqtt5) ∧
                    connect_flags &&& 0x01 ≠ 0 then (-1, outs, none)
                else
                  let clean_start := (connect_flags &&& 0x02) ≠ 0
                  let session_expiry_interval :=
                    if clean_start = false ∧ version_byte ≠ 5 then 4294967295 else 0
                  let will := connect_flags &&& 0x04 ≠ 0
                  let will_qos := (connect_flags &&& 0x18) / 8
                  if will_qos = 3 then (-1, outs, none)
                  else
                    let will_retain := (connect_flags &&& 0x20) = 0x20
                    let password_flag := connect_flags &&& 0x40 ≠ 0
                    let username_flag := connect_flags &&& 0x80 ≠ 0
                    if will ∧ will_retain ∧ retain_available = false then
                      if version_byte = 5 then
                        (-1, outs ++ [.connack 0 MQTT_RC_RETAIN_NOT_SUPPORTED], none)
                      else (-1, outs, none)
                    else if will ∧ will_qos > max_qos then
                      if version_byte = 5 then
                        (-1, outs ++ [.connack 0 MQTT_RC_QOS_NOT_SUPPORTED], none)
                      else (-1, outs, none)
                    else
                      match mqtt_read_uint16 g4 with
                      | .error _ => (-1, outs, none)
                      | .ok (keepalive, g5) =>
                        if version_byte = 5 then
                          match property_read_all CMD_CONNECT g5 with
                          | .error _ => (-1, outs, none)
                          | .ok (props, g6) =>
                            (0, outs,
                              some ⟨protocol_version, is_bridge, clean_start,
                                session_expiry_interval, will, will_qos, will_retain,
                                password_flag, username_flag, keepalive, props, g6⟩)
                        else
                          (0, outs,
                            some ⟨protocol_version, is_bridge, clean_start,
                              session_expiry_interval, will, will_qos, will_retain,
                              password_flag, username_flag, keepalive, [], g5⟩)

/-- The variable-header byte sequence of a v5 CONNECT carrying two
`session-expiry-interval` properties with the 4-byte values `v1` and `v2`:
protocol name "MQTT", version 5, connect flags 0x02 (clean start),
keepalive 60, property length 10, then `0x11 v1 0x11 v2`. -/
def connect_dup_sei_bytes (v1 v2 : List Nat) : List Nat :=
  [0, 4, 77, 81, 84, 84, 5, 0x02, 0, 60, 10, 0x11] ++ v1 ++ [0x11] ++ v2

/-! #### Bit-twiddling bridge lemmas (uint8 semantics of `& 127`, `& 128`, `| 0x80`) -/

lemma nat_and_127 (b : Nat) : b &&& 127 = b % 128 := by
  have h := Nat.and_pow_two_sub_one_eq_mod b 7
  norm_num at h
  exact h

set_option maxRecDepth 20000 in
lemma nat_and_128_eq_zero_iff : ∀ b < 256, (b &&& 128 = 0 ↔ b < 128) := by decide

lemma nat_lor_128 (x : Nat) (hx : x < 128) : x ||| 128 = x + 128 := by
  have h := Nat.mul_add_lt_is_or (show x < 2^7 by omega) 1
  norm_num at h
  rw [Nat.lor_comm, ← h]
  omega

lemma nat_and_128_eq_zero (b : Nat) (h : b < 128) : b &&& 128 = 0 :=
  (nat_and_128_eq_zero_iff b (by omega)).mpr h

lemma nat_and_128_ne_zero (b : Nat) (h1 : 128 ≤ b) (h2 : b < 256) : ¬(b &&& 128 = 0) := by
  intro hc
  exact absurd ((nat_and_128_eq_zero_iff b h2).mp hc) (by omega)

/-! #### Byte-level characterisation of the varint encoder, one lemma per
output length -/

lemma write_go1 (v : Nat) (h : v < 128) : mqtt_write_varint_go 5 v 0 [] = ([v], 1) := by
  have hz : v / 128 = 0 := by omega
  simp only [mqtt_write_varint_go]
  norm_num [hz]
  omega

lemma write_go2 (v : Nat) (h1 : 128 ≤ v) (h2 : v < 16384) :
    mqtt_write_varint_go 5 v 0 [] = ([v % 128 + 128, v / 128 % 128], 2) := by
  have hp : 0 < v / 128 := by omega
  have hz : v / 128 / 128 = 0 := by omega
  have e : v % 128 ||| 128 = v % 128 + 128 := nat_lor_128 _ (by omega)
  simp only [mqtt_write_varint_go]
  norm_num [hp, hz, e]

lemma write_go3 (v : Nat) (h1 : 16384 ≤ v) (h2 : v < 2097152) :
    mqtt_write_varint_go 5 v 0 [] =
      ([v % 128 + 128, v / 128 % 128 + 128, v / 16384 % 128], 3) := by
  have hp : 0 < v / 128 := by omega
  have hp2 : 0 < v / 128 / 128 := by omega
  have hz : v / 128 / 128 / 128 = 0 := by omega
  have e : v % 128 ||| 128 = v % 128 + 128 := nat_lor_128 _ (by omega)
  have e2 : v / 128 % 128 ||| 128 = v / 128 % 128 + 128 := nat_lor_128 _ (by omega)
  have ed : v / 128 / 128 = v / 16384 := by omega
  have hq1 : 0 < v / 16384 := by omega
  have hq2 : v / 16384 / 128 = 0 := by omega
  simp only [mqtt_write_varint_go]
  norm_num [hp, hp2, hz, ed]
  simp [e, e2, hq1, hq2]

lemma write_go4 (v : Nat) (h1 : 2097152 ≤ v) (h2 : v < 268435456) :
    mqtt_write_varint_go 5 v 0 [] =
      ([v % 128 + 128, v / 128 % 128 + 128, v / 16384 % 128 + 128, v / 2097152 % 128], 4) := by
  have hp : 0 < v / 128 := by omega
  have hp2 : 0 < v / 128 / 128 := by omega
  have hp3 : 0 < v / 128 / 128 / 128 := by omega
  have hz : v / 128 / 128 / 128 / 128 = 0 := by omega
  have e : v % 128 ||| 128 = v % 128 + 128 := nat_lor_128 _ (by omega)
  have e2 : v / 128 % 128 ||| 128 = v / 128 % 128 + 128 := nat_lor_128 _ (by omega)
  have e3 : v / 16384 % 128 ||| 128 = v / 16384 % 128 + 128 := nat_lor_128 _ (by omega)
  have ed : v / 128 / 128 = v / 16384 := by omega
  have ed2 : v / 16384 / 128 = v / 2097152 := by omega
  have hq1 : 0 < v / 16384 := by omega
  have hq3 : 0 < v / 2097152 := by omega
  have hq4 : v / 2097152 / 128 = 0 := by omega
  simp only [mqtt_write_varint_go]
  norm_num [hp, hp2, hp3, hz, ed, ed2]
  simp [e, e2, e3, hq1, hq3, hq4]

/-! #### Byte-level characterisation of the varint decoder -/

lemma read_term (b : Nat) (rest : List Nat) (hb : b < 128) :
    mqtt_read_varint (b :: rest) = .ok (b, 1) := by
  have h0 : b &&& 128 = 0 := nat_and_128_eq_zero b hb
  have h127 : b &&& 127 = b := by rw [nat_and_127]; omega
  simp [mqtt_read_varint, mqtt_read_varint_loop, h0, h127]

lemma read_cont2 (x y : Nat) (rest : List Nat) (hx : x < 128) (hy0 : 0 < y) (hy : y < 128) :
    mqtt_read_varint ((x + 128) :: y :: rest) = .ok (x + y * 128, 2) := by
  have h1 : ¬((x + 128) &&& 128 = 0) := nat_and_128_ne_zero _ (by omega) (by omega)
  have e1 : (x + 128) &&& 127 = x := by rw [nat_and_127]; omega
  have h2 : y &&& 128 = 0 := nat_and_128_eq_zero y hy
  have e2 : y &&& 127 = y := by rw [nat_and_127]; omega
  simp [mqtt_read_varint, mqtt_read_varint_loop, h1, e1, h2, e2]
  omega

lemma read_cont3 (x y z : Nat) (rest : List Nat)
    (hx : x < 128) (hy : y < 128) (hz0 : 0 < z) (hz : z < 128) :
    mqtt_read_varint ((x + 128) :: (y + 128) :: z :: rest) =
      .ok (x + y * 128 + z * 16384, 3) := by
  have h1 : ¬((x + 128) &&& 128 = 0) := nat_and_128_ne_zero _ (by omega) (by omega)
  have e1 : (x + 128) &&& 127 = x := by rw [nat_and_127]; omega
  have h2 : ¬((y + 128) &&& 128 = 0) := nat_and_128_ne_zero _ (by omega) (by omega)
  have e2 : (y + 128) &&& 127 = y := by rw [nat_and_127]; omega
  have h3 : z &&& 128 = 0 := nat_and_128_eq_zero z hz
  have e3 : z &&& 127 = z := by rw [nat_and_127]; omega
  simp [mqtt_read_varint, mqtt_read_varint_loop, h1, e1, h2, e2, h3, e3]
  omega

lemma read_cont4 (x y z w : Nat) (rest : List Nat)
    (hx : x < 128) (hy : y < 128) (hz : z < 128) (hw0 : 0 < w) (hw : w < 128) :
    mqtt_read_varint ((x + 128) :: (y + 128) :: (z + 128) :: w :: rest) =
      .ok (x + y * 128 + z * 16384 + w * 2097152, 4) := by
  have h1 : ¬((x + 128) &&& 128 = 0) := nat_and_128_ne_zero _ (by omega) (by omega)
  have e1 : (x + 128) &&& 127 = x := by rw [nat_and_127]; omega
  have h2 : ¬((y + 128) &&& 128 = 0) := nat_and_128_ne_zero _ (by omega) (by omega)
  have e2 : (y + 128) &&& 127 = y := by rw [nat_and_127]; omega
  have h3 : ¬((z + 128) &&& 128 = 0) := nat_and_128_ne_zero _ (by omega) (by omega)
  have e3 : (z + 128) &&& 127 = z := by rw [nat_and_127]; omega
  have h4 : w &&& 128 = 0 := nat_and_128_eq_zero w hw
  have e4 : w &&& 127 = w := by rw [nat_and_127]; omega
  simp [mqtt_read_varint, mqtt_read_varint_loop, h1, e1, h2, e2, h3, e3, h4, e4]
  omega

lemma read_overlong2 (b : Nat) (rest : List Nat) (h1 : 128 ≤ b) (h2 : b < 256) :
    mqtt_read_varint (b :: 0 :: rest) = .error MOSQ_ERR_MALFORMED_PACKET := by
  have hb : ¬(b &&& 128 = 0) := nat_and_128_ne_zero b h1 h2
  simp [mqtt_read_varint, mqtt_read_varint_loop, hb]

lemma read_overlong3 (b c : Nat) (rest : List Nat)
    (hb1 : 128 ≤ b) (hb2 : b < 256) (hc1 : 128 ≤ c) (hc2 : c < 256) :
    mqtt_read_varint (b :: c :: 0 :: rest) = .error MOSQ_ERR_MALFORMED_PACKET := by
  have hb : ¬(b &&& 128 = 0) := nat_and_128_ne_zero b hb1 hb2
  have hc : ¬(c &&& 128 = 0) := nat_and_128_ne_zero c hc1 hc2
  simp [mqtt_read_varint, mqtt_read_varint_loop, hb, hc]

lemma read_overlong4 (b c d : Nat) (rest : List Nat)
    (hb1 : 128 ≤ b) (hb2 : b < 256) (hc1 : 128 ≤ c) (hc2 : c < 256)
    (hd1 : 128 ≤ d) (hd2 : d < 256) :
    mqtt_read_varint (b :: c :: d :: 0 :: rest) = .error MOSQ_ERR_MALFORMED_PACKET := by
  have hb : ¬(b &&& 128 = 0) := nat_and_128_ne_zero b hb1 hb2
  have hc : ¬(c &&& 128 = 0) := nat_and_128_ne_zero c hc1 hc2
  have hd : ¬(d &&& 128 = 0) := nat_and_128_ne_zero d hd1 hd2
  simp [mqtt_read_varint, mqtt_read_varint_loop, hb, hc, hd]

lemma varint_roundtrip (v : Nat) (h : v ≤ 268435455) :
    (mqtt_write_varint v).2 = 0 ∧
    (mqtt_write_varint v).1.length = minVarintLen v ∧
    mqtt_read_varint ((mqtt_write_varint v).1) = .ok (v, minVarintLen v) := by
  have hm : v % 4294967296 = v := by omega
  rcases Nat.lt_or_ge v 128 with h1 | h1
  · have hg := write_go1 v h1
    simp [mqtt_write_varint, hm, hg, minVarintLen, h1, read_term v _ h1]
  · rcases Nat.lt_or_ge v 16384 with h2 | h2
    · have hg := write_go2 v h1 h2
      have hr := read_cont2 (v % 128) (v / 128 % 128) [] (by omega) (by omega) (by omega)
      simp [mqtt_write_varint, hm, hg, minVarintLen, h2, show ¬(v < 128) by omega] at hr ⊢
      rw [hr]
      simp only [Except.ok.injEq, Prod.mk.injEq, and_true]
      omega
    · rcases Nat.lt_or_ge v 2097152 with h3 | h3
      · have hg := write_go3 v h2 h3
        have hr := read_cont3 (v % 128) (v / 128 % 128) (v / 16384 % 128) []
          (by omega) (by omega) (by omega) (by omega)
        simp [mqtt_write_varint, hm, hg, minVarintLen, h3,
          show ¬(v < 128) by omega, show ¬(v < 16384) by omega] at hr ⊢
        rw [hr]
        simp only [Except.ok.injEq, Prod.mk.injEq, and_true]
        omega
      · have hg := write_go4 v h3 (by omega)
        have hr := read_cont4 (v % 128) (v / 128 % 128) (v / 16384 % 128) (v / 2097152 % 128) []
          (by omega) (by omega) (by omega) (by omega) (by omega)
        simp [mqtt_write_varint, hm, hg, minVarintLen,
          show ¬(v < 128) by omega, show ¬(v < 16384) by omega,
          show ¬(v < 2097152) by omega] at hr ⊢
        rw [hr]
        simp only [Except.ok.injEq, Prod.mk.injEq, and_true]
        omega

/-- **C7.** For every integer `v` with `0 ≤ v ≤ 268435455`, the varint encoder
`mqtt_write_varint` succeeds (return code 0) emitting exactly the minimal
number of bytes (1 to 4, `minVarintLen v`), the decoder `mqtt_read_varint`
applied to those bytes yields `v` again, and the decoder rejects overlong
encodings — a non-first terminating byte equal to 0, after 1, 2 or 3
continuation bytes — as `MOSQ_ERR_MALFORMED_PACKET`. -/
theorem C7_varint_roundtrip_minimal_overlong (v : Nat) (h : v ≤ 268435455) :
    (mqtt_write_varint v).2 = 0 ∧
    (mqtt_write_varint v).1.length = minVarintLen v ∧
    1 ≤ minVarintLen v ∧ minVarintLen v ≤ 4 ∧
    mqtt_read_varint ((mqtt_write_varint v).1) = .ok (v, minVarintLen v) ∧
    (∀ b rest, 128 ≤ b → b < 256 →
      mqtt_read_varint (b :: 0 :: rest) = .error MOSQ_ERR_MALFORMED_PACKET) ∧
    (∀ b c rest, 128 ≤ b → b < 256 → 128 ≤ c → c < 256 →
      mqtt_read_varint (b :: c :: 0 :: rest) = .error MOSQ_ERR_MALFORMED_PACKET) ∧
    (∀ b c d rest, 128 ≤ b → b < 256 → 128 ≤ c → c < 256 → 128 ≤ d → d < 256 →
      mqtt_read_varint (b :: c :: d :: 0 :: rest) = .error MOSQ_ERR_MALFORMED_PACKET) := by
  obtain ⟨ha, hb, hc⟩ := varint_roundtrip v h
  refine ⟨ha, hb, ?_, ?_, hc,
    fun b rest h1 h2 => read_overlong2 b rest h1 h2,
    fun b c rest h1 h2 h3 h4 => read_overlong3 b c rest h1 h2 h3 h4,
    fun b c d rest h1 h2 h3 h4 h5 h6 => read_overlong4 b c d rest h1 h2 h3 h4 h5 h6⟩
  · unfold minVarintLen
    split <;> simp_all <;> split <;> simp_all <;> split <;> simp_all
  · unfold minVarintLen
    split <;> norm_num
    split <;> norm_num
    split <;> norm_num

/-- Witness for C7 at the concrete value `v = 200`. -/
theorem C7_varint_roundtrip_minimal_overlong_witness :
    (mqtt_write_varint 200).2 = 0 ∧
    (mqtt_write_varint 200).1.length = minVarintLen 200 ∧
    1 ≤ minVarintLen 200 ∧ minVarintLen 200 ≤ 4 ∧
    mqtt_read_varint ((mqtt_write_varint 200).1) = .ok (200, minVarintLen 200) ∧
    (∀ b rest, 128 ≤ b → b < 256 →
      mqtt_read_varint (b :: 0 :: rest) = .error MOSQ_ERR_MALFORMED_PACKET) ∧
    (∀ b c rest, 128 ≤ b → b < 256 → 128 ≤ c → c < 256 →
      mqtt_read_varint (b :: c :: 0 :: rest) = .error MOSQ_ERR_MALFORMED_PACKET) ∧
    (∀ b c d rest, 128 ≤ b → b < 256 → 128 ≤ c → c < 256 → 128 ≤ d → d < 256 →
      mqtt_read_varint (b :: c :: d :: 0 :: rest) = .error MOSQ_ERR_MALFORMED_PACKET) :=
  C7_varint_roundtrip_minimal_overlong 200 (by norm_num)

set_option maxRecDepth 20000 in
lemma nat_and_224 : ∀ b < 256, (b &&& 224 = 192 ↔ 192 ≤ b ∧ b < 224) := by decide

set_option maxRecDepth 20000 in
lemma nat_and_240 : ∀ b < 256, (b &&& 240 = 224 ↔ 224 ≤ b ∧ b < 240) := by decide

set_option maxRecDepth 20000 in
lemma nat_and_248 : ∀ b < 256, (b &&& 248 = 240 ↔ 240 ≤ b ∧ b < 248) := by decide

set_option maxRecDepth 20000 in
lemma nat_and_192_cont : ∀ b < 256, (b &&& 192 = 128 ↔ 128 ≤ b ∧ b < 192) := by decide

lemma nat_and_31 (b : Nat) : b &&& 31 = b % 32 := by
  have h := Nat.and_pow_two_sub_one_eq_mod b 5
  norm_num at h
  exact h

lemma nat_and_15 (b : Nat) : b &&& 15 = b % 16 := by
  have h := Nat.and_pow_two_sub_one_eq_mod b 4
  norm_num at h
  exact h

lemma nat_and_7 (b : Nat) : b &&& 7 = b % 8 := by
  have h := Nat.and_pow_two_sub_one_eq_mod b 3
  norm_num at h
  exact h

lemma nat_and_63 (b : Nat) : b &&& 63 = b % 64 := by
  have h := Nat.and_pow_two_sub_one_eq_mod b 6
  norm_num at h
  exact h

lemma nat_and_65535 (b : Nat) : b &&& 65535 = b % 65536 := by
  have h := Nat.and_pow_two_sub_one_eq_mod b 16
  norm_num at h
  exact h

lemma shl6_lor (x y : Nat) (hy : y < 64) : (x <<< 6) ||| y = x * 64 + y := by
  have h := Nat.mul_add_lt_is_or (show y < 2^6 by omega) x
  rw [Nat.shiftLeft_eq]
  norm_num at h ⊢
  rw [Nat.mul_comm x 64, ← h]

lemma utf8_check_cp_true {n cp : Nat} (h : utf8_check_cp n cp = true) :
    ¬(0xD800 ≤ cp ∧ cp ≤ 0xDFFF) ∧ ¬(n = 3 ∧ cp < 0x800) ∧
    ¬(n = 4 ∧ (cp < 0x10000 ∨ 0x10FFFF < cp)) ∧
    ¬(0xFDD0 ≤ cp ∧ cp ≤ 0xFDEF) ∧
    cp % 65536 ≠ 0xFFFE ∧ cp % 65536 ≠ 0xFFFF ∧
    ¬(cp ≤ 0x1F) ∧ ¬(0x7F ≤ cp ∧ cp ≤ 0x9F) := by
  unfold utf8_check_cp at h
  simp only [nat_and_65535] at h
  split_ifs at h with h1 h2 h3 h4 h5 h6 <;>
    first
      | exact absurd h (by decide)
      | (refine ⟨h1, h2, h3, h4, ?_, ?_, ?_, ?_⟩ <;> tauto)


set_option maxHeartbeats 1000000 in
lemma validate_go_sound : ∀ (fuel : Nat) (l : List Nat), l.length ≤ fuel →
    (∀ b ∈ l, b < 256) → mosquitto_validate_utf8_go fuel l = true →
    (∀ b ∈ l, b ≠ 0) ∧
    ∃ cps, Utf8Decodes l cps ∧ ∀ p ∈ cps, Utf8Good p := by
  intro fuel
  induction fuel with
  | zero =>
    intro l hl _ _
    have hnil : l = [] := List.eq_nil_of_length_eq_zero (by omega)
    subst hnil
    exact ⟨by simp, [], Utf8Decodes.nil, by simp⟩
  | succ fuel ih =>
    intro l hl hb hacc
    cases l with
    | nil => exact ⟨by simp, [], Utf8Decodes.nil, by simp⟩
    | cons b rest =>
      have hb256 : b < 256 := hb b (by simp)
      have hrest256 : ∀ x ∈ rest, x < 256 := fun x hx => hb x (by simp [hx])
      have hrlen : rest.length ≤ fuel := by
        simp only [List.length_cons] at hl
        omega
      unfold mosquitto_validate_utf8_go at hacc
      by_cases h0 : b = 0
      · rw [if_pos h0] at hacc; exact absurd hacc (by decide)
      rw [if_neg h0] at hacc
      by_cases h1 : b ≤ 127
      · -- 1-byte sequence
        rw [if_pos h1] at hacc
        simp only [u8cont] at hacc
        by_cases hchk : utf8_check_cp 1 b = true
        case neg => rw [if_neg hchk] at hacc; exact absurd hacc (by decide)
        rw [if_pos hchk] at hacc
        obtain ⟨hs, _, _, hf, hFE, hFF, hc1, hc2⟩ := utf8_check_cp_true hchk
        obtain ⟨hnz, cps', hdec, hgood⟩ := ih rest hrlen hrest256 hacc
        refine ⟨?_, (b, 1) :: cps', Utf8Decodes.ascii (by omega) hdec, ?_⟩
        · intro x hx
          rcases List.mem_cons.mp hx with rfl | hx'
          · exact h0
          · exact hnz x hx'
        · intro p hp
          rcases List.mem_cons.mp hp with rfl | hp'
          · exact ⟨by unfold minUtf8Len; rw [if_pos (by omega)],
              by omega, by omega, hFE, hFF, hc1, hc2⟩
          · exact hgood p hp'
      rw [if_neg h1] at hacc
      by_cases h2 : b &&& 224 = 192
      · -- 2-byte sequence
        rw [if_pos h2] at hacc
        have hrange : 192 ≤ b ∧ b < 224 := (nat_and_224 b hb256).mp h2
        by_cases hbc : b = 192 ∨ b = 193
        · rw [if_pos hbc] at hacc; exact absurd hacc (by decide)
        rw [if_neg hbc] at hacc
        by_cases hlen : rest.length + 1 = 1
        · rw [if_pos hlen] at hacc; exact absurd hacc (by decide)
        rw [if_neg hlen] at hacc
        cases rest with
        | nil => simp at hlen
        | cons c r =>
          have hc256 : c < 256 := hrest256 c (by simp)
          simp only [u8cont, List.headD, List.tail_cons] at hacc
          by_cases hcc : c &&& 192 = 128
          case neg => simp [hcc] at hacc
          have hcont : 128 ≤ c ∧ c < 192 := (nat_and_192_cont c hc256).mp hcc
          simp only [if_pos hcc] at hacc
          by_cases hchk : utf8_check_cp 2 (((b &&& 31) <<< 6) ||| (c &&& 63)) = true
          case neg => simp [hchk] at hacc
          simp only [if_pos hchk] at hacc
          have hcpe : ((b &&& 31) <<< 6) ||| (c &&& 63) = (b - 192) * 64 + (c - 128) := by
            rw [nat_and_31, nat_and_63, shl6_lor _ _ (by omega)]
            omega
          rw [hcpe] at hchk
          obtain ⟨hs, _, _, hf, hFE, hFF, hc1, hc2⟩ := utf8_check_cp_true hchk
          have hr256 : ∀ x ∈ r, x < 256 := fun x hx => hrest256 x (by simp [hx])
          have hrl : r.length ≤ fuel := by
            simp only [List.length_cons] at hrlen
            omega
          obtain ⟨hnz, cps', hdec, hgood⟩ := ih r hrl hr256 hacc
          refine ⟨?_, ((b - 192) * 64 + (c - 128), 2) :: cps',
            Utf8Decodes.two hrange.1 hrange.2 hcont.1 hcont.2 hdec, ?_⟩
          · intro x hx
            rcases List.mem_cons.mp hx with rfl | hx'
            · exact h0
            rcases List.mem_cons.mp hx' with rfl | hx''
            · omega
            · exact hnz x hx''
          · intro p hp
            rcases List.mem_cons.mp hp with rfl | hp'
            · refine ⟨?_, hs, hf, hFE, hFF, hc1, hc2⟩
              unfold minUtf8Len
              rw [if_neg (by omega), if_pos (by omega)]
            · exact hgood p hp'
      rw [if_neg h2] at hacc
      by_cases h3 : b &&& 240 = 224
      · -- 3-byte sequence
        rw [if_pos h3] at hacc
        have hrange : 224 ≤ b ∧ b < 240 := (nat_and_240 b hb256).mp h3
        by_cases hlen : rest.length + 1 = 2
        · rw [if_pos hlen] at hacc; exact absurd hacc (by decide)
        rw [if_neg hlen] at hacc
        cases rest with
        | nil => simp [u8cont] at hacc
        | cons c1 r1 =>
          have hc1256 : c1 < 256 := hrest256 c1 (by simp)
          simp only [u8cont, List.headD, List.tail_cons] at hacc
          by_cases hcc1 : c1 &&& 192 = 128
          case neg => simp [hcc1] at hacc
          have hcont1 : 128 ≤ c1 ∧ c1 < 192 := (nat_and_192_cont c1 hc1256).mp hcc1
          simp only [if_pos hcc1] at hacc
          cases r1 with
          | nil => simp at hacc
          | cons c2 r =>
            have hc2256 : c2 < 256 := hrest256 c2 (by simp)
            simp only [List.headD, List.tail_cons] at hacc
            by_cases hcc2 : c2 &&& 192 = 128
            case neg => simp [hcc2] at hacc
            have hcont2 : 128 ≤ c2 ∧ c2 < 192 := (nat_and_192_cont c2 hc2256).mp hcc2
            simp only [if_pos hcc2] at hacc
            by_cases hchk : utf8_check_cp 3
              (((((b &&& 15) <<< 6) ||| (c1 &&& 63)) <<< 6) ||| (c2 &&& 63)) = true
            case neg => simp [hchk] at hacc
            simp only [if_pos hchk] at hacc
            have hcpe : ((((b &&& 15) <<< 6) ||| (c1 &&& 63)) <<< 6) ||| (c2 &&& 63) =
                (b - 224) * 4096 + (c1 - 128) * 64 + (c2 - 128) := by
              rw [nat_and_15, nat_and_63, nat_and_63, shl6_lor _ _ (by omega),
                shl6_lor _ _ (by omega)]
              omega
            rw [hcpe] at hchk
            obtain ⟨hs, hov, _, hf, hFE, hFF, hctl1, hctl2⟩ := utf8_check_cp_true hchk
            have hcplo : 2048 ≤ (b - 224) * 4096 + (c1 - 128) * 64 + (c2 - 128) := by
              by_contra hcon
              exact hov ⟨rfl, by omega⟩
            have hr256 : ∀ x ∈ r, x < 256 := fun x hx => hrest256 x (by simp [hx])
            have hrl : r.length ≤ fuel := by
              simp only [List.length_cons] at hrlen
              omega
            obtain ⟨hnz, cps', hdec, hgood⟩ := ih r hrl hr256 hacc
            refine ⟨?_, ((b - 224) * 4096 + (c1 - 128) * 64 + (c2 - 128), 3) :: cps',
              Utf8Decodes.three hrange.1 hrange.2 hcont1.1 hcont1.2 hcont2.1 hcont2.2 hdec, ?_⟩
            · intro x hx
              rcases List.mem_cons.mp hx with rfl | hx'
              · exact h0
              rcases List.mem_cons.mp hx' with rfl | hx''
              · omega
              rcases List.mem_cons.mp hx'' with rfl | hx'''
              · omega
              · exact hnz x hx'''
            · intro p hp
              rcases List.mem_cons.mp hp with rfl | hp'
              · refine ⟨?_, hs, hf, hFE, hFF, hctl1, hctl2⟩
                unfold minUtf8Len
                rw [if_neg (by omega), if_neg (by omega), if_pos (by omega)]
              · exact hgood p hp'
      rw [if_neg h3] at hacc
      by_cases h4 : b &&& 248 = 240
      · -- 4-byte sequence
        rw [if_pos h4] at hacc
        have hrange : 240 ≤ b ∧ b < 248 := (nat_and_248 b hb256).mp h4
        by_cases hbig : b > 244
        · rw [if_pos hbig] at hacc; exact absurd hacc (by decide)
        rw [if_neg hbig] at hacc
        by_cases hlen : rest.length + 1 = 3
        · rw [if_pos hlen] at hacc; exact absurd hacc (by decide)
        rw [if_neg hlen] at hacc
        cases rest with
        | nil => simp [u8cont] at hacc
        | cons c1 r1 =>
          have hc1256 : c1 < 256 := hrest256 c1 (by simp)
          simp only [u8cont, List.headD, List.tail_cons] at hacc
          by_cases hcc1 : c1 &&& 192 = 128
          case neg => simp [hcc1] at hacc
          have hcont1 : 128 ≤ c1 ∧ c1 < 192 := (nat_and_192_cont c1 hc1256).mp hcc1
          simp only [if_pos hcc1] at hacc
          cases r1 with
          | nil => simp at hacc
          | cons c2 r2 =>
            have hc2256 : c2 < 256 := hrest256 c2 (by simp)
            simp only [List.headD, List.tail_cons] at hacc
            by_cases hcc2 : c2 &&& 192 = 128
            case neg => simp [hcc2] at hacc
            have hcont2 : 128 ≤ c2 ∧ c2 < 192 := (nat_and_192_cont c2 hc2256).mp hcc2
            simp only [if_pos hcc2] at hacc
            cases r2 with
            | nil => simp at hacc
            | cons c3 r =>
              have hc3256 : c3 < 256 := hrest256 c3 (by simp)
              simp only [List.headD, List.tail_cons] at hacc
              by_cases hcc3 : c3 &&& 192 = 128
              case neg => simp [hcc3] at hacc
              have hcont3 : 128 ≤ c3 ∧ c3 < 192 := (nat_and_192_cont c3 hc3256).mp hcc3
              simp only [if_pos hcc3] at hacc
              by_cases hchk : utf8_check_cp 4
                (((((((b &&& 7) <<< 6) ||| (c1 &&& 63)) <<< 6) ||| (c2 &&& 63)) <<< 6) |||
                  (c3 &&& 63)) = true
              case neg => simp [hchk] at hacc
              simp only [if_pos hchk] at hacc
              have hcpe : ((((((b &&& 7) <<< 6) ||| (c1 &&& 63)) <<< 6) ||| (c2 &&& 63)) <<< 6) |||
                  (c3 &&& 63) =
                  (b - 240) * 262144 + (c1 - 128) * 4096 + (c2 - 128) * 64 + (c3 - 128) := by
                rw [nat_and_7, nat_and_63, nat_and_63, nat_and_63, shl6_lor _ _ (by omega),
                  shl6_lor _ _ (by omega), shl6_lor _ _ (by omega)]
                omega
              rw [hcpe] at hchk
              obtain ⟨hs, _, hov, hf, hFE, hFF, hctl1, hctl2⟩ := utf8_check_cp_true hchk
              have hcplo : 65536 ≤ (b - 240) * 262144 + (c1 - 128) * 4096 + (c2 - 128) * 64 +
                  (c3 - 128) := by
                by_contra hcon
                exact hov ⟨rfl, Or.inl (by omega)⟩
              have hr256 : ∀ x ∈ r, x < 256 := fun x hx => hrest256 x (by simp [hx])
              have hrl : r.length ≤ fuel := by
                simp only [List.length_cons] at hrlen
                omega
              obtain ⟨hnz, cps', hdec, hgood⟩ := ih r hrl hr256 hacc
              refine ⟨?_,
                ((b - 240) * 262144 + (c1 - 128) * 4096 + (c2 - 128) * 64 + (c3 - 128), 4) ::
                  cps',
                Utf8Decodes.four hrange.1 hrange.2 hcont1.1 hcont1.2 hcont2.1 hcont2.2
                  hcont3.1 hcont3.2 hdec, ?_⟩
              · intro x hx
                rcases List.mem_cons.mp hx with rfl | hx'
                · exact h0
                rcases List.mem_cons.mp hx' with rfl | hx''
                · omega
                rcases List.mem_cons.mp hx'' with rfl | hx'''
                · omega
                rcases List.mem_cons.mp hx''' with rfl | hx''''
                · omega
                · exact hnz x hx''''
              · intro p hp
                rcases List.mem_cons.mp hp with rfl | hp'
                · refine ⟨?_, hs, hf, hFE, hFF, hctl1, hctl2⟩
                  unfold minUtf8Len
                  rw [if_neg (by omega), if_neg (by omega), if_neg (by omega)]
                · exact hgood p hp'
      rw [if_neg h4] at hacc
      exact absurd hacc (by decide)

/-- **C9.** Every byte string accepted by `mosquitto_validate_utf8`
contains no NUL byte, and parses as UTF-8 sequences (`Utf8Decodes`) whose
code points are all minimally encoded (no overlong encoding), are not
surrogates `0xD800`-`0xDFFF`, are not non-characters (`0xFDD0`-`0xFDEF` or
low 16 bits `0xFFFE`/`0xFFFF`), and are not control characters
(`0x00`-`0x1F`, `0x7F`-`0x9F`). -/
theorem C9_utf8_validator_sound (l : List Nat) (hbytes : ∀ b ∈ l, b < 256)
    (hacc : mosquitto_validate_utf8 l = 0) :
    (∀ b ∈ l, b ≠ 0) ∧
    ∃ cps, Utf8Decodes l cps ∧ ∀ p ∈ cps, Utf8Good p := by
  unfold mosquitto_validate_utf8 at hacc
  split_ifs at hacc with hl hgo
  exact validate_go_sound l.length l le_rfl hbytes hgo

/-- Witness for C9 on the accepted string "a\u00e9\u20ac" (UTF-8 bytes). -/
theorem C9_utf8_validator_sound_witness :
    (∀ b ∈ [0x61, 0xC3, 0xA9, 0xE2, 0x82, 0xAC], b < 256) ∧
    mosquitto_validate_utf8 [0x61, 0xC3, 0xA9, 0xE2, 0x82, 0xAC] = 0 ∧
    ((∀ b ∈ [0x61, 0xC3, 0xA9, 0xE2, 0x82, 0xAC], b ≠ 0) ∧
      ∃ cps, Utf8Decodes [0x61, 0xC3, 0xA9, 0xE2, 0x82, 0xAC] cps ∧ ∀ p ∈ cps, Utf8Good p) :=
  ⟨by decide, by rfl, C9_utf8_validator_sound _ (by decide) (by rfl)⟩

/-! ### C1, C3, C6 demonstrations -/

/-- A connected client subscribed to the wildcard filter `a/+` at qos 1. -/
def c1_wild_client : MqttClient :=
  { id := "c1", isConnected := true, last_mid := 0, keepalive := 60, max_qos := 2,
    subscriptions := [("a/+", ⟨1, -1, false, false⟩)] }

/-- The same client subscribed to the literal topic `a/b`. -/
def c1_exact_client : MqttClient :=
  { c1_wild_client with subscriptions := [("a/b", ⟨1, -1, false, false⟩)] }

/-- **C1.** The claim fails on the code: `sub_get_subscribers` compares the
published topic against each subscription's filter with `strcmp`
(`c_mqtt.c:4194`, whose own comment reads `TODO change strcmp() by
match_topic()`), so a connected client subscribed to `a/+` — a filter that
matches the topic `a/b` by the MQTT wildcard rules — is *not* among the
resolved subscribers of a PUBLISH to `a/b`; only an exact-equal filter is.
Same for `a/#`. -/
theorem C1_sub_get_subscribers_ignores_wildcards :
    mqttTopicMatches "a/+" "a/b" = true ∧
    mqttTopicMatches "a/#" "a/b" = true ∧
    sub_get_subscribers [c1_wild_client] "a/b" = [] ∧
    sub_get_subscribers [c1_exact_client] "a/b" =
      [("c1", [("a/b", ⟨1, -1, false, false⟩)])] :=
  ⟨rfl, rfl, rfl, rfl⟩

/-- The resource table for the C3 demonstration: one client with persisted
`last_mid = 5`. -/
def c3_table : List (String × MqttClient) :=
  [("d", { emptyClient with id := "d", last_mid := 5 })]

/-- **C3.** The claim fails on the code: `mosquitto__mid_generate`
increments a local copy of `last_mid` but saves the *unmodified* client
record (`gobj_save_resource` at `c_mqtt.c:4730` is reached without any
`kw_set_dict_value(client, "last_mid", ...)`), so the persisted counter
never advances and two consecutive calls both return `last_mid + 1`:
here 6 and again 6, with the stored record still carrying 5. -/
theorem C3_mid_generate_never_advances :
    (mosquitto__mid_generate c3_table "d").1 = 6 ∧
    (mosquitto__mid_generate ((mosquitto__mid_generate c3_table "d").2) "d").1 = 6 ∧
    (((mosquitto__mid_generate c3_table "d").2).lookup "d").map MqttClient.last_mid =
      some 5 :=
  ⟨rfl, rfl, rfl⟩

/-- The client record entering the keepalive clamp in the C6
demonstration. -/
def c6_client : MqttClient := { emptyClient with id := "k" }

/-- **C6.** With `max_keepalive = 10` and peer keepalive 100: the claim's
v3.* half holds (CONNACK IdentifierRejected and close), and the v5 half
fails on the code — the client record's keepalive is clamped to 10, but
the `server-keep-alive` CONNACK property carries `priv->keepalive`, i.e.
the peer's original 100, not the clamped value
(`mqtt_property_add_int16(gobj, connack_props, MQTT_PROP_SERVER_KEEP_ALIVE,
priv->keepalive)` at `c_mqtt.c:5480`). -/
theorem C6_server_keepalive_advertises_unclamped :
    connect_on_authorised_keepalive 10 100 mosq_p_mqtt5 0 c6_client [] =
      .proceed { c6_client with keepalive := 10 } [("server-keep-alive", 100)] ∧
    (([("server-keep-alive", 100)] : List (String × Nat)).lookup "server-keep-alive" ≠
      some 10) ∧
    connect_on_authorised_keepalive 10 100 mosq_p_mqtt311 0 c6_client [] =
      .reject 0 CONNACK_REFUSED_IDENTIFIER_REJECTED :=
  ⟨rfl, by decide, rfl⟩

/-! ### C2 demonstration -/

/-- A stored credential whose base64 fields decode to the all-zero 48-byte
hash and 12-byte salt: `value` is 64 `'A'`s, `salt` is 16 `'A'`s. -/
def c2_cred : Credential := ⟨List.replicate 64 65, List.replicate 16 65, "sha512", 1⟩

/-- **C2.** The claim fails on the code.  Against the abstract PBKDF2
oracle `pbkdf2_zero` and the credential `c2_cred`, the specification's
verification predicate (base64-decode salt and hash, outlen = decoded hash
length) succeeds, but `check_passwd` — which never base64-decodes, feeds
the base64 *text* of the salt to PBKDF2, requests a fixed
`EVP_MAX_MD_SIZE` = 64 output bytes and `memcmp`s them against the base64
*text* of the hash — returns -1, so `mqtt_check_password` answers
NotAuthorized.  The last conjunct shows the self-contradiction inside the
file: a credential produced by `hash_password` (which stores base64 of a
64-byte PBKDF2 output, so 88 characters) can never verify, since
`check_passwd` requires the stored text length to equal 64. -/
theorem C2_check_passwd_never_decodes_base64 :
    spec_check_password pbkdf2_zero sha512_only [112] c2_cred.value c2_cred.salt
      "sha512" 1 = true ∧
    check_passwd pbkdf2_zero sha512_only [112] c2_cred.value c2_cred.salt "sha512" 1 = -1 ∧
    mqtt_check_password pbkdf2_zero sha512_only false "alice" [112]
      [("alice", [c2_cred])] = -1 ∧
    (hash_password pbkdf2_zero sha512_only [112] (List.replicate 12 0) "sha512" 27500).map
      (fun cred => check_passwd pbkdf2_zero sha512_only [112] cred.value cred.salt
        cred.algorithm cred.hashIterations) = some (-1) :=
  ⟨by decide, by decide, by decide, by decide⟩

/-! ### C4, C8, C10: PUBLISH handling -/

lemma db_message_store_find_none (q : List ClientMsg) (mid : Nat)
    (h : ∀ e ∈ q, e.store.source_mid ≠ mid) : db_message_store_find q mid = none := by
  induction q with
  | nil => rfl
  | cons t rest ih =>
    unfold db_message_store_find
    rw [if_neg (h t (by simp))]
    exact ih (fun e he => h e (by simp [he]))

/-- The broker state for the C4 demonstration: one connected client `s1`
subscribed to exactly the topic `t` (so even the `strcmp`-based
`sub_get_subscribers` resolves it), and an empty incoming queue. -/
def c4_subscriber : MqttClient :=
  { id := "s1", isConnected := true, last_mid := 0, keepalive := 60,
    max_qos := 2, subscriptions := [("t", ⟨1, -1, false, false⟩)] }

def c4_state : BrokerState := { clients := [c4_subscriber], dl_msgs_in := [] }

/-- **C4.** The claim fails on the code for v5.  For a v5 QoS-1 PUBLISH to
topic `t` with a connected subscriber on `t` — so the resolved subscriber
set is non-empty — the broker still replies PUBACK with reason 16
(`NoMatchingSubscribers`): `has_subscribers` at `c_mqtt.c:7273` is computed
as `json_array_size(jn_subscribers)`, but `jn_subscribers` is a json
*object* (built by `json_object()` in `sub_get_subscribers`), for which
jansson's `json_array_size` always returns 0.  The v3.* half of the claim
(always reason 0) holds, and exactly one PUBACK is sent either way. -/
theorem C4_puback_reason_always_no_matching_subscribers :
    sub_get_subscribers c4_state.clients "t" =
      [("s1", [("t", ⟨1, -1, false, false⟩)])] ∧
    handle_publish_core c4_state mosq_p_mqtt5 2 0 1 false "t" [104, 105] 7 =
      (MOSQ_ERR_SUCCESS,
        [.queue [("s1", [("t", ⟨1, -1, false, false⟩)])] "t" 1 false,
          .puback 7 MQTT_RC_NO_MATCHING_SUBSCRIBERS],
        c4_state) ∧
    handle_publish_core c4_state mosq_p_mqtt311 2 0 1 false "t" [104, 105] 7 =
      (MOSQ_ERR_SUCCESS,
        [.queue [("s1", [("t", ⟨1, -1, false, false⟩)])] "t" 1 false,
          .puback 7 MQTT_RC_SUCCESS],
        c4_state) :=
  ⟨rfl, rfl, rfl⟩

/-- **C8.** Two identical QoS-2 PUBLISHes with the same mid from the same
source, followed by one PUBREL for that mid, cause exactly one delivery to
downstream subscribers: the first PUBLISH stores the message and answers
PUBREC, the duplicate is detected by mid in `dl_msgs_in`, stores nothing
and answers PUBREC again, and the PUBREL releases the single stored entry
once (one `XXX_sub__messages_queue` invocation), removes it, and answers
PUBCOMP.  Stated for any starting state whose incoming queue does not
already use this mid. -/
theorem C8_qos2_duplicate_publish_single_delivery (st : BrokerState)
    (protocol_version message_size_limit : Nat) (retain : Bool) (topic : String)
    (payload : List Nat) (mid : Nat)
    (htc : mosquitto_pub_topic_check topic = 0)
    (hsz : ¬(payload.length ≠ 0 ∧ message_size_limit ≠ 0 ∧
      payload.length > message_size_limit))
    (hnc : topic_is_control topic = false)
    (hmid : 1 ≤ mid)
    (hfresh : ∀ e ∈ st.dl_msgs_in, e.store.source_mid ≠ mid ∧ e.mid ≠ mid) :
    (handle_publish_core st protocol_version 2 message_size_limit 2 retain topic payload
        mid =
      (MOSQ_ERR_SUCCESS, [.pubrec mid 0],
        ({ st with dl_msgs_in :=
            (⟨⟨topic, payload, 2, retain, mid⟩, mid, 2, retain, 7⟩ : ClientMsg) ::
              st.dl_msgs_in } : BrokerState))) ∧
    (handle_publish_core
        ({ st with dl_msgs_in :=
            (⟨⟨topic, payload, 2, retain, mid⟩, mid, 2, retain, 7⟩ : ClientMsg) ::
              st.dl_msgs_in } : BrokerState)
        protocol_version 2 message_size_limit 2 retain topic payload mid =
      (MOSQ_ERR_SUCCESS, [.pubrec mid 0],
        ({ st with dl_msgs_in :=
            (⟨⟨topic, payload, 2, retain, mid⟩, mid, 2, retain, 7⟩ : ClientMsg) ::
              st.dl_msgs_in } : BrokerState))) ∧
    (handle__pubrel_core
        ({ st with dl_msgs_in :=
            (⟨⟨topic, payload, 2, retain, mid⟩, mid, 2, retain, 7⟩ : ClientMsg) ::
              st.dl_msgs_in } : BrokerState)
        protocol_version 2 mid =
      (MOSQ_ERR_SUCCESS,
        [.queue (sub_get_subscribers st.clients topic) topic 2 retain, .pubcomp mid],
        st)) ∧
    (((([.pubrec mid 0] ++ [.pubrec mid 0] ++
        [.queue (sub_get_subscribers st.clients topic) topic 2 retain,
          .pubcomp mid] : List MqttOut)).filter is_queue_event).length = 1) := by
  have hfind : db_message_store_find st.dl_msgs_in mid = none :=
    db_message_store_find_none st.dl_msgs_in mid (fun e he => (hfresh e he).1)
  have hlt : ¬(mosquitto_pub_topic_check topic < 0) := by rw [htc]; omega
  refine ⟨?_, ?_, ?_, by simp [is_queue_event]⟩
  · unfold handle_publish_core
    rw [if_neg hlt, if_neg hsz, if_neg (by simp [hnc])]
    simp [hfind, XXX_save_message_to_pubrec]
  · unfold handle_publish_core
    rw [if_neg hlt, if_neg hsz, if_neg (by simp [hnc])]
    simp [db_message_store_find]
  · simp [handle__pubrel_core, db__message_release_incoming, show mid ≠ 0 from by omega]

/-- Witness for C8 at a concrete input. -/
theorem C8_qos2_duplicate_publish_single_delivery_witness :
    mosquitto_pub_topic_check "x" = 0 ∧
    ¬((([104] : List Nat)).length ≠ 0 ∧ (0 : Nat) ≠ 0 ∧ (([104] : List Nat)).length > 0) ∧
    topic_is_control "x" = false ∧
    1 ≤ 0x1234 ∧
    (∀ e ∈ (⟨[], []⟩ : BrokerState).dl_msgs_in,
      e.store.source_mid ≠ 0x1234 ∧ e.mid ≠ 0x1234) ∧
    (handle_publish_core ⟨[], []⟩ mosq_p_mqtt5 2 0 2 false "x" [104] 0x1234 =
      (MOSQ_ERR_SUCCESS, [.pubrec 0x1234 0],
        (⟨[], [⟨⟨"x", [104], 2, false, 0x1234⟩, 0x1234, 2, false, 7⟩]⟩ : BrokerState))) := by
  refine ⟨by decide, by decide, by decide, by decide, by simp, ?_⟩
  exact (C8_qos2_duplicate_publish_single_delivery ⟨[], []⟩ mosq_p_mqtt5 0 false "x" [104]
    0x1234 (by decide) (by decide) (by decide) (by decide) (by simp)).1

/-- **C10.** Every otherwise-valid inbound PUBLISH whose resolved topic
begins with `$CONTROL/` is refused without any delivery to subscribers
(no `queue` event): QoS 0 is dropped silently with success, QoS 1 is
answered with PUBACK reason `ImplementationSpecific` (0x83 = 131), QoS 2
with PUBREC reason `ImplementationSpecific`, and the broker state is
unchanged. -/
theorem C10_control_topic_refused (st : BrokerState)
    (protocol_version max_qos message_size_limit : Nat) (retain : Bool) (topic : String)
    (payload : List Nat) (mid : Nat)
    (htc : mosquitto_pub_topic_check topic = 0)
    (hsz : ¬(payload.length ≠ 0 ∧ message_size_limit ≠ 0 ∧
      payload.length > message_size_limit))
    (hc : topic_is_control topic = true) :
    handle_publish_core st protocol_version max_qos message_size_limit 0 retain topic
        payload mid = (MOSQ_ERR_SUCCESS, [], st) ∧
    handle_publish_core st protocol_version max_qos message_size_limit 1 retain topic
        payload mid =
      (MOSQ_ERR_SUCCESS, [.puback mid MQTT_RC_IMPLEMENTATION_SPECIFIC], st) ∧
    handle_publish_core st protocol_version max_qos message_size_limit 2 retain topic
        payload mid =
      (MOSQ_ERR_SUCCESS, [.pubrec mid MQTT_RC_IMPLEMENTATION_SPECIFIC], st) := by
  have hlt : ¬(mosquitto_pub_topic_check topic < 0) := by rw [htc]; omega
  refine ⟨?_, ?_, ?_⟩ <;>
    · unfold handle_publish_core
      rw [if_neg hlt, if_neg hsz, if_pos hc]
      simp [process_bad_message]

/-- Witness for C10 on the topic `$CONTROL/broker`. -/
theorem C10_control_topic_refused_witness :
    mosquitto_pub_topic_check "$CONTROL/broker" = 0 ∧
    ¬((([1] : List Nat)).length ≠ 0 ∧ (0 : Nat) ≠ 0 ∧ (([1] : List Nat)).length > 0) ∧
    topic_is_control "$CONTROL/broker" = true ∧
    handle_publish_core ⟨[], []⟩ mosq_p_mqtt5 2 0 1 false "$CONTROL/broker" [1] 9 =
      (MOSQ_ERR_SUCCESS, [.puback 9 MQTT_RC_IMPLEMENTATION_SPECIFIC], ⟨[], []⟩) := by
  refine ⟨by decide, by decide, by decide, ?_⟩
  exact (C10_control_topic_refused ⟨[], []⟩ mosq_p_mqtt5 2 0 false "$CONTROL/broker" [1] 9
    (by decide) (by decide) (by decide)).2.1

/-- C5 counterexample: a well-formed v5 CONNECT variable header (protocol
"MQTT", version 5, clean start, keepalive 60) carrying two
`session-expiry-interval` properties (values 10 and 20) makes
`handle_connect` return -1 with an EMPTY output list: no CONNACK of any
kind is sent, in particular none with reason MalformedPacket.
`property_read` returns `MOSQ_ERR_DUPLICATE_PROPERTY` (`c_mqtt.c:3143`),
`property_read_all` returns NULL, and `handle_connect` returns -1
(`c_mqtt.c:5786`) without calling `send_connack`. -/
theorem C5_duplicate_session_expiry_no_connack_counterexample :
    handle_connect_head false true 0 true 2
        (connect_dup_sei_bytes [0, 0, 0, 10] [0, 0, 0, 20]) =
      (-1, [], none) := by
  rfl

/-- C5 (amended): a v5 CONNECT carrying two `session-expiry-interval`
properties — whatever their two uint32 values — is refused by closing the
connection with NO CONNACK at all: `handle_connect` (server side, not in a
session, clean frame flags) returns -1 with an empty output list and no
parsed result, because the duplicate property aborts `property_read_all`
and `handle_connect` then returns -1 without sending anything
(`c_mqtt.c:5782-5787`); the DuplicateProperty error is never mapped to a
CONNACK reason code. -/
theorem C5_duplicate_session_expiry_closes_without_connack
    (a b c d e f g h : Nat) :
    handle_connect_head false true 0 true 2
        (connect_dup_sei_bytes [a, b, c, d] [e, f, g, h]) =
      (-1, [], none) := by
  rfl

end CMqtt
